import Mathlib

/-!
Verification of the parallel news-crawling / analysis core of the
`aiagentcrawl` repository against its natural-language specification.

The Python source is shallowly embedded: pure fragments become Lean
functions, effectful call-outs (browser automation, LLM calls, wall-clock
reads) become explicit parameters of an environment record, Python dicts
become association lists over a JSON-like value type, machine floats are
idealized as rationals, and code that can raise returns `Except`.

Files embedded:
  * src/agent/news_agent.py            (NewsAnalysisAgent)
  * src/agent/tools/news_scraper/playwright_scraper.py
  * src/agent/tools/news_scraper/playwright_base.py
  * src/agent/tools/data_analyzer/analyzer.py
  * src/common/utils.py                (validate_input)
-/

namespace NewsAgent

/-! ## Python string helpers -/

/-- Python `str.strip()` on a character list: drop leading and trailing
whitespace (idealized to ASCII whitespace). -/
def pyStripList (l : List Char) : List Char :=
  ((l.dropWhile Char.isWhitespace).reverse.dropWhile Char.isWhitespace).reverse

/-- Python `str.strip()` (whitespace trimming; idealized to ASCII
whitespace). -/
def pyStrip (s : String) : String := String.mk (pyStripList s.toList)

/-- Python `str.split()` with no argument: split on whitespace runs,
discarding empty pieces. -/
def pySplitWs (s : String) : List String :=
  (s.split (fun c => c.isWhitespace)).filter (fun p => p ≠ "")

/-- Length of the leading whitespace run of a character list
(the greedy match of a leading regex class `\s*`). -/
def wsCount : List Char → Nat
  | [] => 0
  | c :: r => if c.isWhitespace then wsCount r + 1 else 0

theorem wsCount_le_length (l : List Char) : wsCount l ≤ l.length := by
  induction l with
  | nil => simp [wsCount]
  | cons c r ih =>
    simp only [wsCount, List.length_cons]
    split
    · omega
    · omega

/-! ## `NewsAnalysisAgent._parse_keyword_operators` (news_agent.py:123-147)

The Python code tests and splits the stripped keyword with the regex
`\s*(?:\|\||OR)\s*` under `re.IGNORECASE`.  Because both `\s*` groups may
match the empty string and no whitespace character can begin the literal
alternatives, a match starting at position `i` exists exactly when the
maximal whitespace run starting at `i` is followed by `||` or by the
letter pair `OR` in any case, and the match then greedily also consumes
the whitespace run after the two delimiter characters. -/

/-- The two-character core of the delimiter regex: the literal `||`, or
the letter pair `OR` in any case mix (the `re.IGNORECASE` flag). -/
def isDelimPair (c₁ c₂ : Char) : Bool :=
  (c₁ = '|' && c₂ = '|') || ((c₁ = 'O' || c₁ = 'o') && (c₂ = 'R' || c₂ = 'r'))

/-- Length of the leftmost regex match of `\s*(?:\|\||OR)\s*` anchored at
the head of `l` (`none` when the regex does not match at this position). -/
def delimLen (l : List Char) : Option Nat :=
  let w := wsCount l
  match l.drop w with
  | c₁ :: c₂ :: rest =>
      if isDelimPair c₁ c₂ then some (w + 2 + wsCount rest) else none
  | _ => none

theorem delimLen_ge_two {l : List Char} {n : Nat} (h : delimLen l = some n) :
    2 ≤ n := by
  unfold delimLen at h
  rcases hd : l.drop (wsCount l) with _ | ⟨c₁, _ | ⟨c₂, rest⟩⟩ <;>
    simp only [hd] at h
  · cases h
  · cases h
  · split at h
    · cases h
      omega
    · cases h

/-- Single left-to-right pass of `re.split`: `skip` counts characters of a
previously found match still to be consumed (no new match may start inside
a match: leftmost non-overlapping semantics), `acc` is the current piece
reversed. -/
def sdGo : List Char → Nat → List Char → List (List Char)
  | [], _, acc => [acc.reverse]
  | _ :: r, skip + 1, acc => sdGo r skip acc
  | c :: r, 0, acc =>
    match delimLen (c :: r) with
    | some n => acc.reverse :: sdGo r (n - 1) []
    | none => sdGo r 0 (c :: acc)

/-- `re.split(r'\s*(?:\|\||OR)\s*', l, flags=IGNORECASE)` scanning
left-to-right for leftmost non-overlapping matches. -/
def splitDelim (l : List Char) : List (List Char) := sdGo l 0 []

/-- `re.search(r'\s*(?:\|\||OR)\s*', l, flags=IGNORECASE)` succeeds, i.e.
the delimiter regex matches at some position of `l`. -/
def hasDelim : List Char → Bool
  | [] => false
  | c :: r => (delimLen (c :: r)).isSome || hasDelim r

/-- Result of `_parse_keyword_operators`: the `type` field is the Python
string `"or"` or `"single"`. -/
structure ParsedKeyword where
  type : String
  keywords : List String
  deriving DecidableEq, Repr

/-- `NewsAnalysisAgent._parse_keyword_operators` (news_agent.py:123-147). -/
def parseKeywordOperators (keyword : String) : ParsedKeyword :=
  let s := pyStrip keyword
  if hasDelim s.toList then
    { type := "or",
      keywords :=
        ((splitDelim s.toList).map (fun p => pyStrip (String.mk p))).filter
          (fun k => k ≠ "") }
  else
    { type := "single", keywords := [s] }

/-! Specification-side characterization of the regex trigger: the regex
`\s*(?:\|\||OR)\s*` matches somewhere in `l` exactly when two adjacent
characters of `l` form a delimiter pair, i.e. when `l` contains `||` or
the letter pair `OR`/`or`/`Or`/`oR` as a substring. -/

/-- Some two adjacent characters of the list satisfy `p`. -/
def containsPair (p : Char → Char → Bool) : List Char → Bool
  | c₁ :: c₂ :: r => p c₁ c₂ || containsPair p (c₂ :: r)
  | _ => false

theorem isDelimPair_not_ws {c₁ c₂ : Char} (h : isDelimPair c₁ c₂ = true) :
    c₁.isWhitespace = false := by
  unfold isDelimPair at h
  simp only [Bool.or_eq_true, Bool.and_eq_true, decide_eq_true_eq] at h
  rcases h with ⟨rfl, _⟩ | ⟨rfl | rfl, _⟩ <;> decide

theorem ws_not_delimPair {c₁ c₂ : Char} (h : c₁.isWhitespace = true) :
    isDelimPair c₁ c₂ = false := by
  cases hp : isDelimPair c₁ c₂
  · rfl
  · rw [isDelimPair_not_ws hp] at h
    cases h

theorem delimLen_cons_ws {c : Char} (r : List Char)
    (h : c.isWhitespace = true) :
    (delimLen (c :: r)).isSome = (delimLen r).isSome := by
  unfold delimLen
  simp only [wsCount, h, if_true]
  rw [List.drop_succ_cons]
  rcases List.drop (wsCount r) r with _ | ⟨c₁, _ | ⟨c₂, rest⟩⟩
  · rfl
  · rfl
  · by_cases hp : isDelimPair c₁ c₂ = true
    · simp [hp]
    · simp [Bool.not_eq_true] at hp
      simp [hp]

theorem delimLen_cons_not_ws {c : Char} (r : List Char)
    (h : c.isWhitespace = false) :
    (delimLen (c :: r)).isSome =
      (match r with
       | c₂ :: _ => isDelimPair c c₂
       | [] => false) := by
  unfold delimLen
  simp only [wsCount, h, if_false, List.drop_zero]
  match r with
  | [] => rfl
  | c₂ :: r' =>
    by_cases hp : isDelimPair c c₂ = true
    · simp [hp]
    · simp [Bool.not_eq_true] at hp
      simp [hp]

/-- The `re.search` of `_parse_keyword_operators` succeeds exactly when the
input contains `||` or the letter pair `OR` (case-insensitive) as a plain
substring — with or without surrounding whitespace. -/
theorem hasDelim_eq_containsPair (l : List Char) :
    hasDelim l = containsPair isDelimPair l := by
  induction l with
  | nil => rfl
  | cons c r ih =>
    show ((delimLen (c :: r)).isSome || hasDelim r) = _
    cases hw : c.isWhitespace with
    | true =>
      rw [delimLen_cons_ws r hw]
      match r with
      | [] =>
        simp [hasDelim, containsPair, delimLen, wsCount]
      | c₂ :: r' =>
        show ((delimLen (c₂ :: r')).isSome || hasDelim (c₂ :: r')) = _
        rw [show hasDelim (c₂ :: r') =
              ((delimLen (c₂ :: r')).isSome || hasDelim r') from rfl]
        rw [← Bool.or_assoc, Bool.or_self]
        rw [show ((delimLen (c₂ :: r')).isSome || hasDelim r') =
              hasDelim (c₂ :: r') from rfl, ih]
        show _ = (isDelimPair c c₂ || containsPair isDelimPair (c₂ :: r'))
        rw [ws_not_delimPair hw, Bool.false_or]
    | false =>
      rw [delimLen_cons_not_ws r hw]
      match r with
      | [] => rfl
      | c₂ :: r' =>
        show (isDelimPair c c₂ || hasDelim (c₂ :: r')) = _
        rw [ih]
        rfl

/-- Substring containment of a literal pattern (spelled out to keep the
development self-contained). -/
def startsWithSeq : List Char → List Char → Bool
  | [], _ => true
  | _ :: _, [] => false
  | p :: ps, c :: cs => p = c && startsWithSeq ps cs

/-- `pat` occurs as a contiguous substring of the second argument. -/
def hasSubSeq (pat : List Char) : List Char → Bool
  | [] => startsWithSeq pat []
  | c :: r => startsWithSeq pat (c :: r) || hasSubSeq pat r

/-- Python `str.lower()` (ASCII case folding suffices here). -/
def pyLower (s : String) : String := String.mk (s.toList.map Char.toLower)

end NewsAgent

namespace NewsAgent

/-- [C2] Counterexample. The keyword `"ORACLE"` contains neither `"||"` nor
`" OR "` (case-insensitive, with spaces), so by the claim the parser should
return type `"single"` with `["ORACLE"]`; instead the regex
`\s*(?:\|\||OR)\s*` matches the bare letter pair `OR` inside the word and
the parser returns type `"or"` with the single segment `["ACLE"]`. -/
theorem parse_keyword_operators_claim_false_on_ORACLE :
    hasSubSeq "||".toList "ORACLE".toList = false ∧
    hasSubSeq " or ".toList (pyLower "ORACLE").toList = false ∧
    parseKeywordOperators "ORACLE" = ⟨"or", ["ACLE"]⟩ ∧
    parseKeywordOperators "ORACLE" ≠ ⟨"single", ["ORACLE"]⟩ := by
  refine ⟨by decide, by decide, by decide, by decide⟩

/-- [C2] (amended) `_parse_keyword_operators` returns type `"or"` exactly
when the stripped keyword contains `"||"` or the letter pair `"OR"`
(case-insensitive) anywhere — even inside a word, without surrounding
spaces; in that case the keywords are the non-empty stripped segments of
the regex split `\s*(?:\|\||OR)\s*` in original order (possibly fewer than
two); for every other string it returns type `"single"` whose only element
is the stripped input keyword. -/
theorem parse_keyword_operators_spec (kw : String) :
    (containsPair isDelimPair (pyStrip kw).toList = true →
       parseKeywordOperators kw =
         ⟨"or", ((splitDelim (pyStrip kw).toList).map
             (fun p => pyStrip (String.mk p))).filter (fun k => k ≠ "")⟩ ∧
       ∀ k ∈ (parseKeywordOperators kw).keywords, k ≠ "") ∧
    (containsPair isDelimPair (pyStrip kw).toList = false →
       parseKeywordOperators kw = ⟨"single", [pyStrip kw]⟩) := by
  constructor
  · intro h
    have hd : hasDelim (pyStrip kw).toList = true := by
      rw [hasDelim_eq_containsPair]; exact h
    constructor
    · simp only [parseKeywordOperators, hd, if_true]
    · intro k hk
      simp only [parseKeywordOperators, hd, if_true] at hk
      exact of_decide_eq_true (List.mem_filter.mp hk).2
  · intro h
    have hd : hasDelim (pyStrip kw).toList = false := by
      rw [hasDelim_eq_containsPair]; exact h
    simp only [parseKeywordOperators, hd, Bool.false_eq_true, if_false]

/-- [C2] Witness: the amended statement applied at a keyword with a
delimiter and at one without. -/
theorem parse_keyword_operators_spec_witness :
    parseKeywordOperators "가 || 나" =
      ⟨"or", ((splitDelim (pyStrip "가 || 나").toList).map
          (fun p => pyStrip (String.mk p))).filter (fun k => k ≠ "")⟩ ∧
    parseKeywordOperators "뉴스" = ⟨"single", [pyStrip "뉴스"]⟩ :=
  ⟨((parse_keyword_operators_spec "가 || 나").1 (by decide)).1,
   (parse_keyword_operators_spec "뉴스").2 (by decide)⟩

/-! ## Python values and dictionaries

Python dictionaries (and the JSON values produced by `json.loads`) are
embedded as association lists in insertion order, mirroring the
insertion-ordered semantics of CPython dicts.  Machine floats are
idealized as rationals. -/

inductive JVal where
  | s (v : String)
  | n (v : ℚ)
  | b (v : Bool)
  | null
  | arr (vs : List JVal)
  | obj (kvs : List (String × JVal))

/-- Python `x == t` for a string literal `t` (equality between a
non-string value and a string is `False` in Python, never an error). -/
def jIsStr (v : JVal) (t : String) : Bool :=
  match v with
  | .s u => u = t
  | _ => false

/-- A Python dictionary with string keys. -/
abbrev Dict := List (String × JVal)

/-- `d[k]` / `k in d`: first binding of `k` (CPython dicts are key-unique,
so first = only). -/
def dlookup (d : Dict) (k : String) : Option JVal :=
  match d with
  | [] => Option.none
  | (k', v) :: r => if k' = k then some v else dlookup r k

/-- Python `k in d`. -/
def dcontains (d : Dict) (k : String) : Bool := (dlookup d k).isSome

/-- Python `d.get(k, dflt)`. -/
def dget (d : Dict) (k : String) (dflt : JVal) : JVal := (dlookup d k).getD dflt

/-- Python dict assignment `d[k] = v`: replace the binding of an existing
key in place, append a new key at the end (CPython insertion-order
semantics). -/
def dset : Dict → String → JVal → Dict
  | [], k, v => [(k, v)]
  | (k', v') :: r, k, v =>
    if k' = k then (k, v) :: r else (k', v') :: dset r k v

/-- Python `{**a, **b}`: keys of `a` in order with values overridden by
`b`, then the keys of `b` not present in `a`, in `b`'s order. -/
def dmerge (a b : Dict) : Dict :=
  (a.map (fun kv => (kv.1, (dlookup b kv.1).getD kv.2))) ++
    b.filter (fun kv => !(dcontains a kv.1))

theorem dlookup_dset (d : Dict) (k : String) (v : JVal) :
    dlookup (dset d k v) k = some v := by
  induction d with
  | nil => simp [dset, dlookup]
  | cons kv r ih =>
    rcases kv with ⟨k', v'⟩
    by_cases hk : k' = k
    · simp [dset, hk, dlookup]
    · simp only [dset, if_neg hk, dlookup]
      exact ih

theorem dlookup_dset_ne (d : Dict) (k k' : String) (v : JVal)
    (h : k' ≠ k) : dlookup (dset d k v) k' = dlookup d k' := by
  induction d with
  | nil =>
    simp only [dset, dlookup]
    rw [if_neg (fun hh : k = k' => h hh.symm)]
  | cons kv r ih =>
    rcases kv with ⟨k₀, v₀⟩
    by_cases hk : k₀ = k
    · simp only [dset, if_pos hk, dlookup]
      rw [if_neg (fun hh => h hh.symm), hk,
        if_neg (fun hh => h hh.symm)]
    · simp only [dset, if_neg hk, dlookup]
      by_cases hk' : k₀ = k'
      · rw [if_pos hk', if_pos hk']
      · rw [if_neg hk', if_neg hk']
        exact ih

/-- Python truthiness (`if x:`). -/
def pyTruthy : JVal → Bool
  | .s v => v ≠ ""
  | .n v => v ≠ 0
  | .b v => v
  | .null => false
  | .arr vs => !vs.isEmpty
  | .obj kvs => !kvs.isEmpty

/-- Numeric coercion used by Python comparisons and arithmetic
(`bool` is a numeric type in Python; everything else raises `TypeError`,
modelled as `none`). -/
def jNum : JVal → Option ℚ
  | .n v => some v
  | .b true => some 1
  | .b false => some 0
  | _ => Option.none

/-- Python `sum(...)` over a list of values: `none` models the `TypeError`
raised on the first non-numeric element. -/
def sumNums : List JVal → Option ℚ
  | [] => some 0
  | v :: r =>
    match jNum v, sumNums r with
    | some q, some t => some (q + t)
    | _, _ => Option.none

/-- Python `str(x)`.  Faithful for strings, booleans and `None`; container
and numeric renderings are simplified placeholders (they only feed opaque
LLM call-outs and word-frequency counting, which no claim constrains). -/
def pyStr : JVal → String
  | .s v => v
  | .n v => toString v
  | .b true => "True"
  | .b false => "False"
  | .null => "None"
  | .arr _ => "<list>"
  | .obj _ => "<dict>"

/-! ## `validate_input` (common/utils.py:52-88)

Keyword validation: length bounds plus four SQL-injection regex screens,
all under `re.IGNORECASE`.  `\w` (hence `\b`) is idealized as
ASCII-alphanumeric, underscore, or any non-ASCII character — which agrees
with Python on the alphabets exercised by this codebase. -/

/-- Python regex `\w` (idealization: all non-ASCII characters count as
word characters, as Korean text does under `re.UNICODE`). -/
def pyIsWordChar (c : Char) : Bool := c.isAlphanum || c = '_' || 128 ≤ c.toNat

/-- Case-insensitive anchored match of an upper-case letter pattern. -/
def startsWithCI : List Char → List Char → Bool
  | [], _ => true
  | _ :: _, [] => false
  | p :: ps, c :: cs => Char.toUpper c = p && startsWithCI ps cs

/-- The `\b` word boundary holds right after the matched word. -/
def boundaryAfter (w : List Char) (l : List Char) : Bool :=
  match l.drop w.length with
  | [] => true
  | c :: _ => !pyIsWordChar c

/-- `re.search(r'\bW\b' + tail, text, re.IGNORECASE)` where `extra` tests
the suffix following the matched word against `tail`.  `prevWord` records
whether the previous character was a word character (for the leading
`\b`). -/
def scanWordCI (w : List Char) (extra : List Char → Bool) :
    Bool → List Char → Bool
  | _, [] => false
  | prevWord, c :: r =>
    (!prevWord && startsWithCI w (c :: r) && boundaryAfter w (c :: r) &&
        extra ((c :: r).drop w.length)) ||
      scanWordCI w extra (pyIsWordChar c) r

/-- `\bW\b` occurs in `l` (case-insensitive). -/
def hasWordCI (w : String) (l : List Char) : Bool :=
  scanWordCI w.toList (fun _ => true) false l

/-- An `=` occurs before the next newline (the `.*=` tail of the regex:
`.` does not match `\n`). -/
def eqBeforeNewline : List Char → Bool
  | [] => false
  | c :: r => if c = '\n' then false else (c = '=') || eqBeforeNewline r

/-- `\bW\b.*=.*` occurs in `l` (case-insensitive). -/
def hasWordEqCI (w : String) (l : List Char) : Bool :=
  scanWordCI w.toList eqBeforeNewline false l

/-- `validate_input(text, max_length, min_length=1)`
(common/utils.py:52-88). -/
def pyValidateInput (text : String) (maxLength : Nat) : Bool :=
  let l := text.toList
  if l.length < 1 then false
  else if maxLength < l.length then false
  else if (["SELECT", "INSERT", "UPDATE", "DELETE", "DROP", "CREATE",
      "ALTER", "EXEC", "EXECUTE"].any (fun w => hasWordCI w l)) then false
  else if hasSubSeq "--".toList l || hasSubSeq ";".toList l ||
      hasSubSeq "/*".toList l || hasSubSeq "*/".toList l then false
  else if hasWordEqCI "OR" l then false
  else if hasWordEqCI "AND" l then false
  else true

/-! ## Data analyzer (tools/data_analyzer/analyzer.py)

`parse_json_response` is split at the `json.loads` boundary: its string
scan plus `json.loads` is modelled by an `Option JVal` input (`none` =
no JSON found, or `json.loads` raised), and the validation/normalization
that follows is embedded faithfully.  `Except Unit` models a Python
exception reaching the enclosing `try`. -/

/-- `SentimentType` (common/models.py). -/
inductive SentimentType where
  | positive
  | negative
  | neutral
  deriving DecidableEq, Repr

/-- The `.value` string of the enum member. -/
def SentimentType.value : SentimentType → String
  | .positive => "긍정"
  | .negative => "부정"
  | .neutral => "중립"

/-- `SentimentType(x)`: `none` models the `ValueError` raised when `x` is
not one of the enum values. -/
def sentimentTypeOf (v : JVal) : Option SentimentType :=
  if jIsStr v "긍정" then some .positive
  else if jIsStr v "부정" then some .negative
  else if jIsStr v "중립" then some .neutral
  else Option.none

/-- The fixed fallback distribution `{"긍정": 0.33, "부정": 0.33, "중립": 0.34}`
(analyzer.py:183, 193). -/
def fallbackDistEntries : List (String × JVal) :=
  [("긍정", .n (33/100)), ("부정", .n (33/100)), ("중립", .n (34/100))]

/-- The sentiment default returned when parsing fails (analyzer.py:191). -/
def dsentDefault : Dict :=
  [("sentiment", .s "중립"), ("confidence", .n (1/2)),
   ("reason", .s "파싱 오류"), ("keywords", .arr [])]

/-- The trend default returned when parsing fails (analyzer.py:193). -/
def trendDefault : Dict :=
  [("overall_sentiment", .s "중립"),
   ("sentiment_distribution", .obj fallbackDistEntries),
   ("key_topics", .arr []), ("summary", .s "파싱 오류")]

/-- analyzer.py:168-169: add `"sentiment": "중립"` when the key is
missing. -/
def sentimentKeyFix (kvs : Dict) : Dict :=
  if dcontains kvs "sentiment" then kvs
  else dset kvs "sentiment" (.s "중립")

/-- analyzer.py:170-171: replace a `sentiment` value outside the three
labels by `"중립"`. -/
def sentimentValueFix (d1 : Dict) : Dict :=
  if jIsStr (dget d1 "sentiment" .null) "긍정" ||
      jIsStr (dget d1 "sentiment" .null) "부정" ||
      jIsStr (dget d1 "sentiment" .null) "중립" then d1
  else dset d1 "sentiment" (.s "중립")

/-- analyzer.py:172-173: replace a missing or out-of-range `confidence`
by 0.5; a non-numeric one raises a `TypeError` in the chained comparison
`0 <= c <= 1`. -/
def confFix (d2 : Dict) : Except Unit Dict :=
  match dlookup d2 "confidence" with
  | Option.none => .ok (dset d2 "confidence" (.n (1/2)))
  | some c =>
    match jNum c with
    | Option.none => .error ()
    | some q =>
      if 0 ≤ q ∧ q ≤ 1 then .ok d2
      else .ok (dset d2 "confidence" (.n (1/2)))

/-- The `response_type == "sentiment"` normalization of
`parse_json_response` (analyzer.py:167-173) applied to the loaded JSON
value.  A non-dict value raises (`in` / item assignment on it). -/
def normalizeSentiment : JVal → Except Unit Dict
  | .obj kvs => confFix (sentimentValueFix (sentimentKeyFix kvs))
  | _ => .error ()

/-- `parse_json_response(·, "sentiment")` after `json.loads`
(analyzer.py:149-193): internal failures degrade to the default. -/
def parseJsonSentiment (loaded : Option JVal) : Dict :=
  match loaded with
  | Option.none => dsentDefault
  | some v =>
    match normalizeSentiment v with
    | .ok d => d
    | .error _ => dsentDefault

/-- The `response_type == "trend"` normalization of `parse_json_response`
(analyzer.py:175-183).  The parsed value is returned unchanged when it has
no `"sentiment_distribution"` key; `in` on a string is a substring test
and on a list a membership test (no exception), while item access or
`.values()` on the wrong type raises. -/
def normalizeTrend : JVal → Except Unit JVal
  | .obj kvs =>
    match dlookup kvs "sentiment_distribution" with
    | Option.none => .ok (.obj kvs)
    | some (.obj dist) =>
      match sumNums (dist.map (fun kv => kv.2)) with
      | Option.none => .error ()
      | some total =>
        if 0 < total then
          .ok (.obj (dset kvs "sentiment_distribution"
            (.obj (dist.map (fun kv =>
              (kv.1, JVal.n ((jNum kv.2).getD 0 / total)))))))
        else
          .ok (.obj (dset kvs "sentiment_distribution"
            (.obj fallbackDistEntries)))
    | some _ => .error ()
  | .s u =>
    if hasSubSeq "sentiment_distribution".toList u.toList then .error ()
    else .ok (.s u)
  | .arr vs =>
    if vs.any (fun v => jIsStr v "sentiment_distribution") then .error ()
    else .ok (.arr vs)
  | _ => .error ()

/-- `parse_json_response(·, "trend")` after `json.loads`
(analyzer.py:149-193). -/
def parseJsonTrend (loaded : Option JVal) : JVal :=
  match loaded with
  | Option.none => .obj trendDefault
  | some v =>
    match normalizeTrend v with
    | .ok r => r
    | .error _ => .obj trendDefault

/-- `TrendAnalysis` (common/models.py). The dataclass performs no type
validation, so the distribution/topics/summary fields hold whatever value
was assigned. -/
structure TrendAnalysis where
  keyword : String
  overall_sentiment : SentimentType
  sentiment_distribution : JVal
  key_topics : JVal
  summary : JVal
  total_comments : Nat

/-- `DataAnalyzerTool.analyze_trend` (analyzer.py:218-247), with the LLM
response parse modelled by `loaded`.  `Except Unit` models the
`KeyError`/`ValueError` that item access or `SentimentType(...)` can
raise when the parsed response lacks the needed fields (`analyze_trend`
itself has no try/except). -/
def analyzeTrend (keyword : String) (comments : List JVal)
    (loaded : Option JVal) : Except Unit TrendAnalysis :=
  if comments.isEmpty then
    .ok { keyword := keyword, overall_sentiment := .neutral,
          sentiment_distribution :=
            .obj [("긍정", .n 0), ("부정", .n 0), ("중립", .n 1)],
          key_topics := .arr [], summary := .s "분석할 댓글이 없습니다.",
          total_comments := 0 }
  else
    match parseJsonTrend loaded with
    | .obj kvs =>
      match dlookup kvs "overall_sentiment" with
      | Option.none => .error ()
      | some ov =>
        match sentimentTypeOf ov with
        | Option.none => .error ()
        | some st =>
          match dlookup kvs "sentiment_distribution" with
          | Option.none => .error ()
          | some dist =>
            .ok { keyword := keyword, overall_sentiment := st,
                  sentiment_distribution := dist,
                  key_topics := dget kvs "key_topics" (.arr []),
                  summary := dget kvs "summary" (.s ""),
                  total_comments := comments.length }
    | _ => .error ()

/-- `SentimentResult` (common/models.py) as constructed by
`analyze_single_comment`; `confidence`/`reason`/`keywords` carry the raw
parsed values (the dataclass does not validate types). -/
structure SentimentResultS where
  text : String
  sentiment : SentimentType
  confidence : JVal
  reason : JVal
  keywords : JVal

/-- Outcome of the OpenAI chat call inside `call_openai_api`. -/
inductive ApiOutcome where
  | apiError
  | response (loaded : Option JVal)

/-- Parse of the hard-coded sentiment dummy JSON returned on API errors
(analyzer.py:145). -/
def dummySentiment : JVal :=
  .obj [("sentiment", .s "중립"), ("confidence", .n (1/2)),
        ("reason", .s "API 오류로 인한 기본 응답"),
        ("keywords", .arr [.s "분석불가"])]

/-- `call_openai_api` on a sentiment prompt, composed with the JSON scan
of `parse_json_response`: an API exception yields the dummy JSON string,
whose parse is `dummySentiment`. -/
def callOpenAIParsedSent : ApiOutcome → Option JVal
  | .apiError => some dummySentiment
  | .response l => l

/-- The local `result` of `analyze_single_comment`: the parsed and
normalized model response. -/
def sentParsed (api : ApiOutcome) : Dict :=
  parseJsonSentiment (callOpenAIParsedSent api)

/-- `DataAnalyzerTool.analyze_single_comment` (analyzer.py:195-216).
`Except Unit` models the `ValueError` on invalid input and the
`KeyError`/`ValueError` that building `SentimentResult` can raise. -/
def analyzeSingleComment (comment : String) (api : ApiOutcome) :
    Except Unit SentimentResultS :=
  if pyValidateInput comment 1000 then
    match dlookup (sentParsed api) "sentiment" with
    | Option.none => .error ()
    | some sv =>
      match sentimentTypeOf sv with
      | Option.none => .error ()
      | some st =>
        match dlookup (sentParsed api) "confidence" with
        | Option.none => .error ()
        | some cv =>
          match dlookup (sentParsed api) "reason" with
          | Option.none => .error ()
          | some rv =>
            .ok { text := comment, sentiment := st, confidence := cv,
                  reason := rv,
                  keywords := dget (sentParsed api) "keywords" (.arr []) }
  else .error ()

/-- `BaseModel.to_dict` applied to a `SentimentResult` (field order of the
dataclass; the enum becomes its value string, the `None` timestamp stays
`None`). -/
def sentimentToDict (r : SentimentResultS) : Dict :=
  [("text", .s r.text), ("sentiment", .s r.sentiment.value),
   ("confidence", r.confidence), ("reason", r.reason),
   ("keywords", r.keywords), ("timestamp", .null)]

/-- The `analyze_sentiment` tool function (analyzer.py:250-259): any
exception (analyzer construction included, controlled by `initOk`)
degrades to the error dict with confidence `0.0`; `errMsg` stands for
`str(e)`. -/
def analyzeSentimentTool (comment : String) (initOk : Bool)
    (errMsg : String) (api : ApiOutcome) : Dict :=
  if initOk then
    match analyzeSingleComment comment api with
    | .ok r => sentimentToDict r
    | .error _ =>
      [("error", .s errMsg), ("sentiment", .s "중립"), ("confidence", .n 0)]
  else
    [("error", .s errMsg), ("sentiment", .s "중립"), ("confidence", .n 0)]

/-! ### Trend-distribution lemmas (C7) -/

theorem sumNums_map_div (vs : List JVal) (s t : ℚ)
    (h : sumNums vs = some s) :
    sumNums (vs.map (fun v => JVal.n ((jNum v).getD 0 / t))) = some (s / t) := by
  induction vs generalizing s with
  | nil =>
    simp only [sumNums] at h
    cases h
    simp [sumNums, zero_div]
  | cons v r ih =>
    simp only [sumNums] at h
    rcases hv : jNum v with _ | q <;> rw [hv] at h
    · cases h
    · rcases hr : sumNums r with _ | s' <;> rw [hr] at h
      · cases h
      · cases h
        simp only [List.map_cons, sumNums, hv, Option.getD_some, ih s' hr]
        show some (q / t + s' / t) = some ((q + s') / t)
        rw [add_div]

theorem sumNums_fallback :
    sumNums (fallbackDistEntries.map (fun kv => kv.2)) = some 1 := by
  simp only [fallbackDistEntries, List.map_cons, List.map_nil, sumNums,
    jNum]
  norm_num

/-- `parse_json_response(·, "trend")` either degrades to the default dict
or returns a value accepted by the normalization. -/
theorem parseJsonTrend_cases (loaded : Option JVal) :
    parseJsonTrend loaded = .obj trendDefault ∨
      ∃ v, loaded = some v ∧
        normalizeTrend v = .ok (parseJsonTrend loaded) := by
  rcases loaded with _ | w
  · exact Or.inl rfl
  · simp only [parseJsonTrend]
    rcases hn : normalizeTrend w with e | r
    · exact Or.inl rfl
    · exact Or.inr ⟨w, rfl, hn⟩

/-- Any `"sentiment_distribution"` value present in the dict produced by
`parse_json_response(·, "trend")` is an object whose values are numeric
and sum exactly to 1. -/
theorem parseJsonTrend_dist (loaded : Option JVal)
    (kvs : List (String × JVal)) (v : JVal)
    (h : parseJsonTrend loaded = .obj kvs)
    (hv : dlookup kvs "sentiment_distribution" = some v) :
    ∃ entries, v = .obj entries ∧
      sumNums (entries.map (fun kv => kv.2)) = some 1 := by
  have hdefault : ∀ (hk : JVal.obj trendDefault = JVal.obj kvs),
      ∃ entries, v = .obj entries ∧
        sumNums (entries.map (fun kv => kv.2)) = some 1 := by
    intro hk
    injection hk with hk'
    rw [← hk'] at hv
    have hcomp : dlookup trendDefault "sentiment_distribution" =
        some (.obj fallbackDistEntries) := rfl
    rw [hcomp] at hv
    cases hv
    exact ⟨fallbackDistEntries, rfl, sumNums_fallback⟩
  rcases parseJsonTrend_cases loaded with hdef | ⟨w, hw, hn⟩
  · exact hdefault (by rw [← hdef, h])
  · rw [h] at hn
    rcases w with u | q | bb | _ | vs | kvs0
    · simp only [normalizeTrend] at hn
      split at hn
      · cases hn
      · injection hn with h'
        cases h'
    · cases hn
    · cases hn
    · cases hn
    · simp only [normalizeTrend] at hn
      split at hn
      · cases hn
      · injection hn with h'
        cases h'
    · simp only [normalizeTrend] at hn
      split at hn
      · rename_i hd
        injection hn with h'
        injection h' with h''
        rw [← h''] at hv
        rw [hd] at hv
        cases hv
      · rename_i dist hd
        split at hn
        · cases hn
        · rename_i total hs
          split at hn
          · rename_i hpos
            injection hn with h'
            injection h' with h''
            rw [← h'', dlookup_dset] at hv
            cases hv
            refine ⟨_, rfl, ?_⟩
            rw [List.map_map]
            have hdiv := sumNums_map_div (dist.map (fun kv => kv.2)) total
              total (by rw [hs])
            rw [List.map_map] at hdiv
            rw [show ((fun kv : String × JVal => kv.2) ∘
                (fun kv : String × JVal =>
                  (kv.1, JVal.n ((jNum kv.2).getD 0 / total)))) =
                ((fun w => JVal.n ((jNum w).getD 0 / total)) ∘
                  (fun kv : String × JVal => kv.2)) from rfl]
            rw [hdiv, div_self (ne_of_gt hpos)]
          · rename_i hpos
            injection hn with h'
            injection h' with h''
            rw [← h'', dlookup_dset] at hv
            cases hv
            exact ⟨fallbackDistEntries, rfl, sumNums_fallback⟩
      · cases hn

/-- [C7] (amended) Every sentiment distribution in a `TrendAnalysis`
produced by `analyze_trend` is an object whose values sum exactly to 1.0
(hence within 1e-6) — for `totalComments > 0` and `totalComments == 0`
alike; but when `totalComments == 0` the distribution is
`{긍정: 0.0, 부정: 0.0, 중립: 1.0}`, not the fixed fallback
`{긍정: 0.33, 부정: 0.33, 중립: 0.34}`. -/
theorem analyze_trend_distribution (keyword : String) (comments : List JVal)
    (loaded : Option JVal) (t : TrendAnalysis)
    (h : analyzeTrend keyword comments loaded = .ok t) :
    (∃ entries, t.sentiment_distribution = .obj entries ∧
       sumNums (entries.map (fun kv => kv.2)) = some 1) ∧
    (t.total_comments = 0 → t.sentiment_distribution =
       .obj [("긍정", .n 0), ("부정", .n 0), ("중립", .n 1)]) := by
  unfold analyzeTrend at h
  by_cases hc : comments.isEmpty
  · rw [if_pos hc] at h
    injection h with h'
    rw [← h']
    exact ⟨⟨[("긍정", .n 0), ("부정", .n 0), ("중립", .n 1)], rfl, by
      simp only [List.map_cons, List.map_nil, sumNums, jNum]
      norm_num⟩, fun _ => rfl⟩
  · rw [if_neg hc] at h
    split at h
    · rename_i kvs hp
      split at h
      · cases h
      · rename_i ov ho
        split at h
        · cases h
        · rename_i st hst
          split at h
          · cases h
          · rename_i dist hd
            injection h with h'
            rw [← h']
            refine ⟨parseJsonTrend_dist loaded kvs dist hp hd, ?_⟩
            intro h0
            exfalso
            have hlen : comments.length = 0 := h0
            rw [List.length_eq_zero] at hlen
            rw [hlen] at hc
            exact hc rfl
    · cases h

/-- [C7] Witness: the distribution statement applied to a concrete
analysis of one comment whose model response failed to parse (so the
fallback distribution is used). -/
theorem analyze_trend_distribution_witness :
    ∃ entries,
      (⟨"좋다", .neutral, .obj fallbackDistEntries, .arr [],
        .s "파싱 오류", 1⟩ : TrendAnalysis).sentiment_distribution =
          .obj entries ∧
      sumNums (entries.map (fun kv => kv.2)) = some 1 :=
  (analyze_trend_distribution "좋다" [JVal.s "댓글"] Option.none
    ⟨"좋다", .neutral, .obj fallbackDistEntries, .arr [],
      .s "파싱 오류", 1⟩ rfl).1

/-- [C7] Counterexample. `analyze_trend` on an empty comment list produces
`totalComments = 0` with distribution `{긍정: 0.0, 부정: 0.0, 중립: 1.0}` —
not the fixed fallback `{긍정: 0.33, 부정: 0.33, 중립: 0.34}` the claim
states for that case. -/
theorem analyze_trend_empty_not_fallback :
    (analyzeTrend "테스트" [] Option.none).toOption.map
        TrendAnalysis.total_comments = some 0 ∧
    (analyzeTrend "테스트" [] Option.none).toOption.map
        TrendAnalysis.sentiment_distribution =
      some (.obj [("긍정", .n 0), ("부정", .n 0), ("중립", .n 1)]) ∧
    (analyzeTrend "테스트" [] Option.none).toOption.map
        TrendAnalysis.sentiment_distribution ≠
      some (.obj fallbackDistEntries) := by
  refine ⟨rfl, rfl, ?_⟩
  intro h
  simp only [analyzeTrend, List.isEmpty_nil, if_pos, Except.toOption,
    Option.map_some, fallbackDistEntries, Option.some.injEq] at h
  have h0 := congrArg (fun v => match v with
    | JVal.obj (( _, JVal.n q) :: _) => q
    | _ => (0 : ℚ)) h
  simp only at h0
  norm_num at h0

/-! ### Scorer confidence lemmas (C8) -/

theorem sentimentFix_conf (kvs : Dict) :
    dlookup (sentimentValueFix (sentimentKeyFix kvs)) "confidence" =
      dlookup kvs "confidence" := by
  have h1 : dlookup (sentimentKeyFix kvs) "confidence" =
      dlookup kvs "confidence" := by
    unfold sentimentKeyFix
    split
    · rfl
    · exact dlookup_dset_ne kvs "sentiment" "confidence" _ (by decide)
  unfold sentimentValueFix
  split
  · exact h1
  · rw [dlookup_dset_ne _ "sentiment" "confidence" _ (by decide)]
    exact h1

theorem confFix_ok_conf (d2 d : Dict) (h : confFix d2 = .ok d) :
    ∃ q, (dlookup d "confidence").bind jNum = some q ∧ 0 ≤ q ∧ q ≤ 1 := by
  unfold confFix at h
  split at h
  · injection h with h'
    refine ⟨1/2, ?_, by norm_num, by norm_num⟩
    rw [← h', dlookup_dset]
    rfl
  · rename_i c hc
    split at h
    · cases h
    · rename_i q hq
      split at h
      · rename_i hr
        injection h with h'
        refine ⟨q, ?_, hr.1, hr.2⟩
        rw [← h', hc]
        simp [hq]
      · injection h with h'
        refine ⟨1/2, ?_, by norm_num, by norm_num⟩
        rw [← h', dlookup_dset]
        rfl

theorem confFix_missing (d2 d : Dict)
    (h2 : dlookup d2 "confidence" = Option.none)
    (h : confFix d2 = .ok d) :
    dlookup d "confidence" = some (.n (1/2)) := by
  unfold confFix at h
  split at h
  · injection h with h'
    rw [← h', dlookup_dset]
  · rename_i c hc
    rw [h2] at hc
    cases hc

theorem confFix_out_of_range (d2 : Dict) (c : JVal) (q : ℚ)
    (hc : dlookup d2 "confidence" = some c) (hq : jNum c = some q)
    (hr : ¬ (0 ≤ q ∧ q ≤ 1)) :
    confFix d2 = .ok (dset d2 "confidence" (.n (1/2))) := by
  unfold confFix
  rw [hc]
  show (match jNum c with
    | Option.none => Except.error ()
    | some q =>
      if 0 ≤ q ∧ q ≤ 1 then Except.ok d2
      else Except.ok (dset d2 "confidence" (.n (1/2)))) = _
  rw [hq]
  show (if 0 ≤ q ∧ q ≤ 1 then Except.ok d2
      else Except.ok (dset d2 "confidence" (.n (1/2)))) = _
  rw [if_neg hr]

theorem confFix_nonnumeric (d2 : Dict) (c : JVal)
    (hc : dlookup d2 "confidence" = some c)
    (hq : jNum c = Option.none) :
    confFix d2 = .error () := by
  unfold confFix
  rw [hc]
  show (match jNum c with
    | Option.none => Except.error ()
    | some q =>
      if 0 ≤ q ∧ q ≤ 1 then Except.ok d2
      else Except.ok (dset d2 "confidence" (.n (1/2)))) = _
  rw [hq]

/-- Every dict produced by `parse_json_response(·, "sentiment")` carries a
numeric `confidence` in `[0, 1]`. -/
theorem parseJsonSentiment_confidence (loaded : Option JVal) :
    ∃ q, (dlookup (parseJsonSentiment loaded) "confidence").bind jNum =
        some q ∧ 0 ≤ q ∧ q ≤ 1 := by
  have hdef : ∃ q, (dlookup dsentDefault "confidence").bind jNum = some q ∧
      0 ≤ q ∧ q ≤ 1 := by
    refine ⟨1/2, ?_, by norm_num, by norm_num⟩
    rfl
  rcases loaded with _ | v
  · exact hdef
  · simp only [parseJsonSentiment]
    rcases hnk : normalizeSentiment v with e | d
    · exact hdef
    · rcases v with u | q | bb | _ | vs | kvs
      · cases hnk
      · cases hnk
      · cases hnk
      · cases hnk
      · cases hnk
      · exact confFix_ok_conf (sentimentValueFix (sentimentKeyFix kvs)) d hnk

/-- [C8] Every sentiment result produced by the scorer has a numeric
confidence in `[0.0, 1.0]`: a missing confidence is replaced by 0.5, an
out-of-range numeric confidence is replaced by 0.5, a non-numeric
confidence makes parsing degrade to the default (confidence 0.5), and the
API-error and tool-level exception paths yield 0.5 and 0.0
respectively — all inside the range. -/
theorem scorer_confidence_in_range :
    (∀ (comment : String) (initOk : Bool) (errMsg : String)
        (api : ApiOutcome),
       ∃ q, (dlookup (analyzeSentimentTool comment initOk errMsg api)
           "confidence").bind jNum = some q ∧ 0 ≤ q ∧ q ≤ 1) ∧
    (∀ kvs d, normalizeSentiment (.obj kvs) = .ok d →
       dlookup kvs "confidence" = Option.none →
       dlookup d "confidence" = some (.n (1/2))) ∧
    (∀ kvs c q d, dlookup kvs "confidence" = some c → jNum c = some q →
       ¬ (0 ≤ q ∧ q ≤ 1) → normalizeSentiment (.obj kvs) = .ok d →
       dlookup d "confidence" = some (.n (1/2))) ∧
    (∀ kvs c, dlookup kvs "confidence" = some c →
       jNum c = Option.none →
       parseJsonSentiment (some (.obj kvs)) = dsentDefault) := by
  refine ⟨?_, ?_, ?_, ?_⟩
  · intro comment initOk errMsg api
    unfold analyzeSentimentTool
    by_cases hi : initOk
    · rw [if_pos hi]
      rcases ha : analyzeSingleComment comment api with e | r
      · exact ⟨0, rfl, le_refl 0, by norm_num⟩
      · unfold analyzeSingleComment at ha
        split at ha
        · split at ha
          · cases ha
          · rename_i sv hs
            split at ha
            · cases ha
            · rename_i st hst
              split at ha
              · cases ha
              · rename_i cv hcv
                split at ha
                · cases ha
                · rename_i rv hrv
                  injection ha with ha'
                  obtain ⟨q, hq, h0, h1⟩ :=
                    parseJsonSentiment_confidence (callOpenAIParsedSent api)
                  rw [show parseJsonSentiment (callOpenAIParsedSent api) =
                      sentParsed api from rfl, hcv] at hq
                  refine ⟨q, ?_, h0, h1⟩
                  have hlook : dlookup (sentimentToDict r) "confidence" =
                      some r.confidence := rfl
                  rw [hlook, ← ha']
                  exact hq
        · cases ha
    · rw [if_neg hi]
      exact ⟨0, rfl, le_refl 0, by norm_num⟩
  · intro kvs d hok hnone
    have h2 : dlookup (sentimentValueFix (sentimentKeyFix kvs))
        "confidence" = Option.none := by
      rw [sentimentFix_conf]
      exact hnone
    exact confFix_missing _ d h2 hok
  · intro kvs c q d hc hq hrange hok
    have h2 : dlookup (sentimentValueFix (sentimentKeyFix kvs))
        "confidence" = some c := by
      rw [sentimentFix_conf]
      exact hc
    have hfix := confFix_out_of_range _ c q h2 hq hrange
    have hok' : confFix (sentimentValueFix (sentimentKeyFix kvs)) =
        .ok d := hok
    rw [hfix] at hok'
    injection hok' with h'
    rw [← h', dlookup_dset]
  · intro kvs c hc hq
    have h2 : dlookup (sentimentValueFix (sentimentKeyFix kvs))
        "confidence" = some c := by
      rw [sentimentFix_conf]
      exact hc
    have hfix := confFix_nonnumeric _ c h2 hq
    show (match normalizeSentiment (.obj kvs) with
      | Except.ok d => d
      | Except.error _ => dsentDefault) = dsentDefault
    show (match confFix (sentimentValueFix (sentimentKeyFix kvs)) with
      | Except.ok d => d
      | Except.error _ => dsentDefault) = dsentDefault
    rw [hfix]

/-- [C8] Witness: the clamping statements applied at concrete
out-of-range and non-numeric model outputs. -/
theorem scorer_confidence_in_range_witness :
    parseJsonSentiment (some (.obj [("confidence", .s "높음")])) =
      dsentDefault ∧
    dlookup [("confidence", JVal.n (1/2)), ("sentiment", JVal.s "중립")]
        "confidence" = some (.n (1/2)) :=
  ⟨scorer_confidence_in_range.2.2.2 [("confidence", .s "높음")]
      (.s "높음") rfl rfl,
   scorer_confidence_in_range.2.2.1 [("confidence", .n 2)] (.n 2) 2
      [("confidence", JVal.n (1/2)), ("sentiment", JVal.s "중립")]
      rfl rfl (by norm_num) rfl⟩

/-! ## `PlaywrightBaseScraper.extract_text_by_selectors`
(playwright_base.py:101-131)

One page interaction per selector, modelled by its outcome: the
`wait_for_selector`/`text_content` calls raised, the element was falsy,
or an element was found with `text_content()` returning `None` or a
string. -/

/-- Outcome of trying one CSS selector on a page. -/
inductive SelOutcome where
  | err
  | noElem
  | content (t : Option String)

/-- `extract_text_by_selectors(page, selectors)`: try the selectors in
order; return the stripped text of the first one whose element text is
truthy and longer than 10 characters after stripping; any exception or
rejection moves on to the next selector; `None` when none qualifies. -/
def extractTextBySelectors (page : String → SelOutcome) :
    List String → Option String
  | [] => Option.none
  | sel :: rest =>
    match page sel with
    | .content (some t) =>
      if t ≠ "" ∧ 10 < (pyStrip t).length then some (pyStrip t)
      else extractTextBySelectors page rest
    | _ => extractTextBySelectors page rest

/-- Specification-side qualifier: the selector yields a truthy text whose
stripped form has more than 10 characters. -/
def selQualifies (page : String → SelOutcome) (sel : String) : Bool :=
  match page sel with
  | .content (some t) =>
    if t ≠ "" ∧ 10 < (pyStrip t).length then true else false
  | _ => false

/-- Specification-side extracted text of a selector. -/
def selStripped (page : String → SelOutcome) (sel : String) : String :=
  match page sel with
  | .content (some t) => pyStrip t
  | _ => ""

/-- [C9] For every page and ordered selector list, the selector-fallback
text extractor returns the stripped text of the first selector in list
order that passes the minimum-length qualifier (`len(strip(text)) > 10`),
and the `None` sentinel when no selector qualifies; a failing selector
moves on to the next candidate, and the function is total (never
raises). -/
theorem extract_text_by_selectors_spec (page : String → SelOutcome)
    (sels : List String) :
    extractTextBySelectors page sels =
      (sels.find? (fun sel => selQualifies page sel)).map
        (fun sel => selStripped page sel) := by
  induction sels with
  | nil => rfl
  | cons sel rest ih =>
    rw [List.find?_cons]
    rcases hp : page sel with _ | _ | t
    · have hq : selQualifies page sel = false := by
        unfold selQualifies
        rw [hp]
      rw [hq]
      show extractTextBySelectors page (sel :: rest) = _
      unfold extractTextBySelectors
      rw [hp]
      exact ih
    · have hq : selQualifies page sel = false := by
        unfold selQualifies
        rw [hp]
      rw [hq]
      show extractTextBySelectors page (sel :: rest) = _
      unfold extractTextBySelectors
      rw [hp]
      exact ih
    · rcases t with _ | t
      · have hq : selQualifies page sel = false := by
          unfold selQualifies
          rw [hp]
        rw [hq]
        show extractTextBySelectors page (sel :: rest) = _
        unfold extractTextBySelectors
        rw [hp]
        exact ih
      · by_cases hcond : t ≠ "" ∧ 10 < (pyStrip t).length
        · have hq : selQualifies page sel = true := by
            unfold selQualifies
            rw [hp]
            show (if t ≠ "" ∧ 10 < (pyStrip t).length then true
              else false) = true
            rw [if_pos hcond]
          rw [hq]
          show extractTextBySelectors page (sel :: rest) = _
          unfold extractTextBySelectors
          rw [hp]
          show (if t ≠ "" ∧ 10 < (pyStrip t).length then some (pyStrip t)
            else extractTextBySelectors page rest) = _
          rw [if_pos hcond]
          show some (pyStrip t) = some (selStripped page sel)
          unfold selStripped
          rw [hp]
        · have hq : selQualifies page sel = false := by
            unfold selQualifies
            rw [hp]
            show (if t ≠ "" ∧ 10 < (pyStrip t).length then true
              else false) = false
            rw [if_neg hcond]
          rw [hq]
          show extractTextBySelectors page (sel :: rest) = _
          unfold extractTextBySelectors
          rw [hp]
          show (if t ≠ "" ∧ 10 < (pyStrip t).length then some (pyStrip t)
            else extractTextBySelectors page rest) = _
          rw [if_neg hcond]
          exact ih

/-! ## `PlaywrightNewsScraper` (playwright_scraper.py)

The two per-source `search_news` coroutines run under
`asyncio.gather(..., return_exceptions=True)`, so each contributes either
its URL list or its exception; the per-URL `extract_article` calls are
wrapped in a try/except returning `None`, so each contributes an optional
dict.  Those outcomes are the parameters of the embedding. -/

/-- Outcome of one source's `search_news` task: the exception message or
the discovered URL list. -/
abbrev SearchOutcome := Except String (List String)

/-- The `results` dict of `search_news_parallel`, initialized as
`{"네이버": [], "구글": []}`. -/
structure SearchResults where
  naver : List String
  google : List String
  deriving DecidableEq, Repr

/-- The `source_mapping` dict (playwright_scraper.py:58-61, and the same
table in news_agent.py). -/
def sourceMapping (s : String) : Option String :=
  if s = "네이버" then some "네이버"
  else if s = "naver" then some "네이버"
  else if s = "구글" then some "구글"
  else if s = "google" then some "구글"
  else Option.none

/-- The source-normalization loop shared by
`search_news_parallel` (playwright_scraper.py:63-70) and
`_analyze_single_keyword` (news_agent.py:698-705): map each requested
source, drop unknown ones and duplicates, default to `["네이버"]` when
nothing survives. -/
def normalizeSources (sources : List String) : List String :=
  let valid := sources.foldl (fun acc s =>
    match sourceMapping s with
    | some n => if acc.contains n then acc else acc ++ [n]
    | Option.none => acc) []
  if valid.isEmpty then ["네이버"] else valid

/-- `search_news_parallel` (playwright_scraper.py:37-99): one task per
requested source; a task's exception is logged and contributes `[]`. -/
def searchNewsParallel (naverS googleS : SearchOutcome)
    (sources : List String) : SearchResults :=
  let valid := normalizeSources sources
  { naver :=
      if valid.contains "네이버" then
        match naverS with
        | .ok urls => urls
        | .error _ => []
      else [],
    google :=
      if valid.contains "구글" then
        match googleS with
        | .ok urls => urls
        | .error _ => []
      else [] }

/-- The filter `if result and not isinstance(result, Exception)`
(playwright_scraper.py:147-149): exceptions/`None` were already turned
into `none` by the semaphore wrapper, and a falsy (empty) dict is also
dropped. -/
def keepExtract (r : Option Dict) : Option Dict :=
  match r with
  | some d => if d.isEmpty then Option.none else some d
  | Option.none => Option.none

/-- `extract_articles_parallel` (playwright_scraper.py:101-154): one task
per discovered URL, Naver URLs first (dict insertion order), results kept
in task order. -/
def extractArticlesParallel (extract : String → String → Option Dict)
    (urlMap : SearchResults) : List Dict :=
  (urlMap.naver.map (fun u => ("네이버", u)) ++
      urlMap.google.map (fun u => ("구글", u))).filterMap
    (fun su => keepExtract (extract su.1 su.2))

/-- `scrape_all` (playwright_scraper.py:156-179). -/
def scrapeAll (naverS googleS : SearchOutcome)
    (extract : String → String → Option Dict)
    (sources : List String) : List Dict :=
  extractArticlesParallel extract (searchNewsParallel naverS googleS sources)

/-- [C3] With both sources requested and one `search_news` raising while
the other succeeds, the failed source contributes an empty URL list, and
`scrape_all` returns exactly the articles extracted from the surviving
source's URLs — in both failure directions; being a total function, no
exception propagates. -/
theorem scrape_all_partial_failure (e : String) (urls : List String)
    (naverS googleS : SearchOutcome)
    (extract : String → String → Option Dict) :
    (naverS = .error e → googleS = .ok urls →
      searchNewsParallel naverS googleS ["네이버", "구글"] =
        ⟨[], urls⟩ ∧
      scrapeAll naverS googleS extract ["네이버", "구글"] =
        urls.filterMap (fun u => keepExtract (extract "구글" u))) ∧
    (naverS = .ok urls → googleS = .error e →
      searchNewsParallel naverS googleS ["네이버", "구글"] =
        ⟨urls, []⟩ ∧
      scrapeAll naverS googleS extract ["네이버", "구글"] =
        urls.filterMap (fun u => keepExtract (extract "네이버" u))) := by
  have hnorm : normalizeSources ["네이버", "구글"] = ["네이버", "구글"] := by
    decide
  constructor
  · intro hn hg
    subst hn
    subst hg
    have hsr : searchNewsParallel (.error e) (.ok urls)
        ["네이버", "구글"] = ⟨[], urls⟩ := by
      simp [searchNewsParallel, hnorm]
    refine ⟨hsr, ?_⟩
    show extractArticlesParallel extract
      (searchNewsParallel (.error e) (.ok urls) ["네이버", "구글"]) = _
    rw [hsr]
    simp only [extractArticlesParallel, List.map_nil, List.nil_append,
      List.filterMap_map]
    rfl
  · intro hn hg
    subst hn
    subst hg
    have hsr : searchNewsParallel (.ok urls) (.error e)
        ["네이버", "구글"] = ⟨urls, []⟩ := by
      simp [searchNewsParallel, hnorm]
    refine ⟨hsr, ?_⟩
    show extractArticlesParallel extract
      (searchNewsParallel (.ok urls) (.error e) ["네이버", "구글"]) = _
    rw [hsr]
    simp only [extractArticlesParallel, List.map_nil, List.append_nil,
      List.filterMap_map]
    rfl

/-- [C3] Witness: the partial-failure statement applied at a concrete
failing Naver search and a two-URL Google result. -/
theorem scrape_all_partial_failure_witness :
    searchNewsParallel (.error "timeout") (.ok ["u1", "u2"])
        ["네이버", "구글"] = ⟨[], ["u1", "u2"]⟩ ∧
    scrapeAll (.error "timeout") (.ok ["u1", "u2"])
        (fun src u => some [("url", .s u), ("source", .s src)])
        ["네이버", "구글"] =
      (["u1", "u2"].filterMap (fun u =>
        keepExtract (some [("url", .s u), ("source", .s "구글")]))) :=
  (scrape_all_partial_failure "timeout" ["u1", "u2"] (.error "timeout")
    (.ok ["u1", "u2"])
    (fun src u => some [("url", .s u), ("source", .s src)])).1 rfl rfl

/-! ## `NewsAnalysisAgent` (news_agent.py)

The coordinator is embedded with `PLAYWRIGHT_AVAILABLE = True` (the
parallel pipeline the spec describes).  All effectful call-outs become
fields of an environment record `Env`: the crawl outcome per keyword, the
`analyze_sentiment_func` / `analyze_news_trend_func` callees (imported
from `agent.tools` but not defined under `src/`, hence opaque), the two
LLM summarizers (total functions per their internal try/except), the
measured wall-clock phase durations, and `datetime.now().isoformat()`. -/

/-- Token accumulator (`token_usage` minus the derived cost). -/
structure Usage where
  prompt : ℚ
  completion : ℚ
  total : ℚ
  deriving DecidableEq, Repr

def Usage.add (a b : Usage) : Usage :=
  ⟨a.prompt + b.prompt, a.completion + b.completion, a.total + b.total⟩

def Usage.zero : Usage := ⟨0, 0, 0⟩

/-- Result of `_summarize_article` / `_generate_overall_summary` (total
functions: every failure path inside them returns the empty summary with
zero usage). -/
structure SummaryOut where
  summary : String
  usage : Usage

/-- Wall-clock durations (in seconds, as measured by `time.time()`
differences) of the phases of one analysis run. -/
structure Elapsed where
  crawl : ℚ
  sentiment : ℚ
  summary : ℚ
  total : ℚ

/-- Outcome of `scrape_all` under `asyncio.wait_for`: the article dicts,
the `asyncio.TimeoutError`, or another exception escaping `scrape_all`. -/
inductive CrawlOutcome where
  | ok (articles : List Dict)
  | timeout
  | raised (msg : String)

/-- Environment of one coordinator run. -/
structure Env where
  crawl : String → List String → Nat → CrawlOutcome
  sentimentOf : JVal → Except Unit Dict
  trendOf : List Dict → String → Dict
  summarize : JVal → JVal → SummaryOut
  overall : List Dict → String → JVal → SummaryOut
  elapsed : String → Elapsed
  orSummaryElapsed : ℚ
  orTotalElapsed : ℚ
  now : String

/-- Python `round(x, d)` idealized over the rationals (round half to
even). -/
def pyRound (x : ℚ) (d : ℕ) : ℚ :=
  (((fun y : ℚ =>
    if y - ⌊y⌋ < 1/2 then ⌊y⌋
    else if (1:ℚ)/2 < y - ⌊y⌋ then ⌊y⌋ + 1
    else if ⌊y⌋ % 2 = 0 then ⌊y⌋ else ⌊y⌋ + 1) (x * 10 ^ d) : ℤ) : ℚ) /
    10 ^ d

/-- Python `s[:n]` on a string. -/
def pyTake (n : Nat) (s : String) : String := String.mk (s.toList.take n)

/-- A Python list of strings as a JSON value. -/
def strArr (l : List String) : JVal := .arr (l.map JVal.s)

/-- `round(prompt*0.15/1e6 + completion*0.6/1e6, 6)`
(news_agent.py:431-435). -/
def estCost (u : Usage) : ℚ :=
  pyRound (u.prompt * (15/100) / 1000000 + u.completion * (6/10) / 1000000) 6

/-- The `token_usage` dict. -/
def usageDict (u : Usage) : JVal :=
  .obj [("prompt_tokens", .n u.prompt), ("completion_tokens", .n u.completion),
        ("total_tokens", .n u.total), ("estimated_cost", .n (estCost u))]

/-- The `timing_info` dict with its four rounded entries. -/
def timingDict (c s m t : ℚ) : JVal :=
  .obj [("crawling_time", .n c), ("sentiment_time", .n s),
        ("summary_time", .n m), ("total_time", .n t)]

/-- The per-article sentiment fallback used when `analyze_sentiment_func`
raises (news_agent.py:338-343 and 757). -/
def sentFallback : Dict :=
  [("sentiment", .s "중립"), ("sentiment_score", .n 0),
   ("sentiment_label", .s "neutral"), ("confidence", .n 0)]

/-- `_calculate_sentiment_distribution` (news_agent.py:520-533): label
counts as a (positive, negative, neutral) triple. -/
def sentCounts (articles : List Dict) : ℚ × ℚ × ℚ :=
  articles.foldl (fun acc a =>
    let s := dget a "sentiment" (.s "중립")
    if jIsStr s "긍정" then (acc.1 + 1, acc.2.1, acc.2.2)
    else if jIsStr s "부정" then (acc.1, acc.2.1 + 1, acc.2.2)
    else (acc.1, acc.2.1, acc.2.2 + 1)) (0, 0, 0)

/-- The `{"positive": _, "negative": _, "neutral": _}` dict. -/
def distDict (c : ℚ × ℚ × ℚ) : JVal :=
  .obj [("positive", .n c.1), ("negative", .n c.2.1), ("neutral", .n c.2.2)]

/-- One insertion-ordered frequency bump (`keyword_freq[word] =
keyword_freq.get(word, 0) + 1`). -/
def bumpFreq : List (String × Nat) → String → List (String × Nat)
  | [], w => [(w, 1)]
  | (w', c) :: r, w =>
    if w' = w then (w, c + 1) :: r else (w', c) :: bumpFreq r w

/-- The word-frequency table of `_extract_keywords`
(news_agent.py:810-823), in dict insertion order. -/
def keywordFreq (articles : List Dict) (mainKeyword : String) :
    List (String × Nat) :=
  articles.foldl (fun freq a =>
    let text := pyStr (dget a "title" (.s "")) ++ " " ++
      pyStr (dget a "content" (.s ""))
    (pySplitWs text).foldl (fun fr w =>
      if 1 < w.toList.length ∧ w ≠ mainKeyword then bumpFreq fr w else fr)
      freq) []

/-- `_extract_keywords` (news_agent.py:810-831): top 10 words by
frequency (stable descending sort, like `sorted(..., reverse=True)`). -/
def extractKeywordsJ (articles : List Dict) (mainKeyword : String) : JVal :=
  .arr (((keywordFreq articles mainKeyword).mergeSort
      (fun a b => b.2 ≤ a.2)).take 10 |>.map
    (fun kv => .obj [("keyword", .s kv.1), ("frequency", .n kv.2)]))

/-- `{**article, **article_sentiment, "summary": "", "comments": cs,
"comment_count": n}` (news_agent.py:366-372 and 759-765). -/
def enrichArticle (article asent : Dict) (cs : List Dict) : Dict :=
  dset (dset (dset (dmerge article asent) "summary" (.s ""))
    "comments" (.arr (cs.map JVal.obj))) "comment_count" (.n cs.length)

/-- The `f"{article.get('title','')} {article.get('content','')}"` text,
truncated to 500 characters for the sentiment call. -/
def articleText500 (article : Dict) : JVal :=
  .s (pyTake 500 (pyStr (dget article "title" (.s "")) ++ " " ++
    pyStr (dget article "content" (.s ""))))

/-- One step of the per-article summary loop: set the article's summary
in place and add its token usage. -/
def summarizeStep (env : Env) (acc : List Dict × Usage) (a : Dict) :
    List Dict × Usage :=
  (acc.1 ++ [dset a "summary"
    (.s (env.summarize (dget a "title" (.s ""))
      (dget a "content" (.s ""))).summary)],
   acc.2.add (env.summarize (dget a "title" (.s ""))
     (dget a "content" (.s ""))).usage)

/-- Per-article summary loop (news_agent.py:379-391 and 770-782): set
each summary in place and accumulate token usage. -/
def summarizeLoop (env : Env) (articles : List Dict) : List Dict × Usage :=
  articles.foldl (summarizeStep env) ([], Usage.zero)

/-- The `try/except TimeoutError/finally` crawl block
(news_agent.py:248-267 and 709-719).  The second component records that
`cleanup()` ran (the `finally`), on every exit path. -/
inductive CrawlStep where
  | proceed (articles : List Dict)
  | earlyReturn (d : Dict)
  | exc (msg : String)

def crawlPhase (outcome : CrawlOutcome) (keyword : String)
    (timeoutDict : Dict) : CrawlStep × Bool :=
  match outcome with
  | .ok arts =>
    (.proceed (arts.map (fun a => dset a "keyword" (.s keyword))), true)
  | .timeout => (.earlyReturn timeoutDict, true)
  | .raised msg => (.exc msg, true)

/-- One step of the `_analyze_single_keyword` sentiment loop
(news_agent.py:749-765): skip error articles; otherwise merge the article
with its sentiment (fallback on exception) and the fixed
`summary`/`comments`/`comment_count` fields — comments are never
collected on this path. -/
def singleArticleStep (env : Env) (acc : List Dict) (a : Dict) :
    List Dict :=
  if dcontains a "error" then acc
  else
    acc ++ [enrichArticle a
      (match env.sentimentOf (articleText500 a) with
       | .ok s => s
       | .error _ => sentFallback) []]

/-- The post-crawl part of `_analyze_single_keyword`
(news_agent.py:742-805): empty-crawl error, or the full
sentiment/summary/distribution/keyword pipeline (comments never
collected). -/
def singleSuccess (env : Env) (keyword : String)
    (articles : List Dict) : Dict :=
  if articles.isEmpty then
    [("error", .s ("\'" ++ keyword ++ "\' 기사 없음")),
     ("keyword", .s keyword)]
  else
    [("keyword", .s keyword),
     ("total_articles", .n (articles.foldl (singleArticleStep env) []).length),
     ("articles", .arr ((summarizeLoop env
       (articles.foldl (singleArticleStep env) [])).1.map JVal.obj)),
     ("sentiment_distribution", distDict (sentCounts
       (summarizeLoop env (articles.foldl (singleArticleStep env) [])).1)),
     ("keywords", extractKeywordsJ
       (summarizeLoop env (articles.foldl (singleArticleStep env) [])).1
       keyword),
     ("timing", timingDict (pyRound (env.elapsed keyword).crawl 2)
       (pyRound (env.elapsed keyword).sentiment 2)
       (pyRound (env.elapsed keyword).summary 2)
       (pyRound (env.elapsed keyword).total 2)),
     ("token_usage", usageDict
       (summarizeLoop env (articles.foldl (singleArticleStep env) [])).2)]

/-- `_analyze_single_keyword` (news_agent.py:666-808).  A total function:
every exception inside is caught (the outer `except` returns
`{"error": str(e), "keyword": keyword}`, reached when `scrape_all` raises
something other than the timeout). -/
def analyzeSingleKeyword (env : Env) (keyword : String)
    (sources : List String) (maxArticles : Nat) : Dict :=
  match crawlPhase
    (env.crawl keyword (normalizeSources sources) maxArticles) keyword
    [("error", .s ("\'" ++ keyword ++ "\' 검색 시간 초과"))] with
  | (.earlyReturn d, _) => d
  | (.exc msg, _) => [("error", .s msg), ("keyword", .s keyword)]
  | (.proceed articles, _) => singleSuccess env keyword articles

/-! ### `_analyze_multiple_keywords_or` (news_agent.py:535-664) -/

/-- `.get(k, 0)` on a nested dict value, numerically. -/
def jGetNum (v : JVal) (k : String) : ℚ :=
  match v with
  | .obj kvs => (jNum (dget kvs k (.n 0))).getD 0
  | _ => 0

/-- The dict elements of a JSON array value. -/
def jArrDicts : JVal → List Dict
  | .arr vs => vs.filterMap (fun v => match v with
    | .obj kvs => some kvs
    | _ => Option.none)
  | _ => []

/-- The elements of a JSON array value. -/
def jArrList : JVal → List JVal
  | .arr vs => vs
  | _ => []

/-- Accumulator of the per-keyword merge loop. -/
structure OrAcc where
  allArticles : List Dict
  allKeywords : List JVal
  combined : ℚ × ℚ × ℚ
  keywordResults : List JVal
  crawlT : ℚ
  sentT : ℚ
  sumT : ℚ
  usage : Usage

def OrAcc.init : OrAcc := ⟨[], [], (0, 0, 0), [], 0, 0, 0, Usage.zero⟩

/-- The merge of one sub-analysis `result` into the accumulator
(news_agent.py:583-612): failed sub-analyses (dicts carrying `"error"`)
are skipped; successful ones contribute their tagged articles, keyword
result, and summed counters. -/
def orStepResult (acc : OrAcc) (kw : String) (result : Dict) : OrAcc :=
  if dcontains result "error" then acc
  else
    { allArticles := acc.allArticles ++
        (jArrDicts (dget result "articles" (.arr []))).map
          (fun a => dset a "search_keyword" (.s kw)),
      allKeywords := acc.allKeywords ++
        jArrList (dget result "keywords" (.arr [])),
      combined := (acc.combined.1 +
          jGetNum (dget result "sentiment_distribution" (.obj [])) "positive",
        acc.combined.2.1 +
          jGetNum (dget result "sentiment_distribution" (.obj [])) "negative",
        acc.combined.2.2 +
          jGetNum (dget result "sentiment_distribution" (.obj [])) "neutral"),
      keywordResults := acc.keywordResults ++
        [.obj [("keyword", .s kw),
          ("article_count", dget result "total_articles" (.n 0)),
          ("sentiment", dget result "sentiment_distribution" (.obj []))]],
      crawlT := acc.crawlT +
        jGetNum (dget result "timing" (.obj [])) "crawling_time",
      sentT := acc.sentT +
        jGetNum (dget result "timing" (.obj [])) "sentiment_time",
      sumT := acc.sumT +
        jGetNum (dget result "timing" (.obj [])) "summary_time",
      usage := ⟨acc.usage.prompt +
          jGetNum (dget result "token_usage" (.obj [])) "prompt_tokens",
        acc.usage.completion +
          jGetNum (dget result "token_usage" (.obj [])) "completion_tokens",
        acc.usage.total +
          jGetNum (dget result "token_usage" (.obj [])) "total_tokens"⟩ }

/-- One iteration of the merge loop (news_agent.py:574-616): run the
sub-analysis and merge its result. -/
def orStep (env : Env) (sources : List String) (budget : Nat)
    (acc : OrAcc) (kw : String) : OrAcc :=
  orStepResult acc kw (analyzeSingleKeyword env kw sources budget)

/-- Result assembly of `_analyze_multiple_keywords_or`
(news_agent.py:618-664) from the loop accumulator: structured error when
no articles survive, otherwise the merged dict with the regenerated
combined summary. -/
def orMergeResult (env : Env) (keywords sources : List String)
    (acc : OrAcc) : Dict :=
  if acc.allArticles.isEmpty then
    [("error", .s ("\'" ++ String.intercalate " || " keywords ++
       "\' 키워드로 기사를 찾을 수 없습니다.")),
     ("keyword", .s (String.intercalate " || " keywords)),
     ("sources", strArr sources)]
  else
    [("keyword", .s (String.intercalate " || " keywords)),
     ("search_type", .s "or"),
     ("keyword_results", .arr acc.keywordResults),
     ("sources", strArr sources),
     ("total_articles", .n acc.allArticles.length),
     ("articles", .arr (acc.allArticles.map JVal.obj)),
     ("sentiment_distribution", distDict acc.combined),
     ("keywords", .arr (acc.allKeywords.take 20)),
     ("overall_summary", .s (env.overall acc.allArticles
       (String.intercalate " || " keywords) (distDict acc.combined)).summary),
     ("timing", timingDict acc.crawlT acc.sentT
       (acc.sumT + pyRound env.orSummaryElapsed 2)
       (pyRound env.orTotalElapsed 2)),
     ("token_usage", usageDict (acc.usage.add (env.overall acc.allArticles
       (String.intercalate " || " keywords) (distDict acc.combined)).usage)),
     ("analyzed_at", .s env.now)]

/-- `_analyze_multiple_keywords_or`: run one sub-analysis per sub-keyword
with budget `max(3, max_articles // len(keywords))`, merge the successful
ones, regenerate one combined summary, and return the merged dict (or a
structured error when no articles survive). -/
def analyzeMultipleKeywordsOr (env : Env) (keywords : List String)
    (sources : List String) (maxArticles : Nat) : Dict :=
  orMergeResult env keywords sources
    (keywords.foldl
      (orStep env sources (max 3 (maxArticles / keywords.length)))
      OrAcc.init)

/-! ### `analyze_news_async` (news_agent.py:149-467) -/

/-- The `unsupported_sources` list (news_agent.py:213). -/
def unsupportedSources : List String :=
  ["다음", "Daum", "KBS", "SBS", "MBC", "YTN", "JTBC", "연합뉴스"]

/-- Outcome of the source filtering of `analyze_news_async`
(news_agent.py:208-240). -/
inductive SourceCheck where
  | rejected (d : Dict)
  | proceed (valid : List String)

/-- One iteration of the source-filtering loop (news_agent.py:218-229):
the accumulator is `(valid_sources, rejected_sources)`. -/
def sourceStep (acc : List String × List String) (source : String) :
    List String × List String :=
  if unsupportedSources.contains source then (acc.1, acc.2 ++ [source])
  else match sourceMapping source with
    | some n => (if acc.1.contains n then acc.1 else acc.1 ++ [n], acc.2)
    | Option.none => (acc.1, acc.2 ++ [source])

/-- Source filtering: known-unsupported and unmapped sources are
rejected; if nothing valid remains and something was rejected, return the
structured error enumerating rejected and supported sources; with no
sources at all default to `["네이버"]`. -/
def filterSources (keyword : String) (sources : List String) : SourceCheck :=
  let step := (if sources.isEmpty then ["네이버"] else sources).foldl
    sourceStep ([], [])
  if step.1.isEmpty ∧ ¬ step.2.isEmpty then
    .rejected
      [("error", .s ("선택한 뉴스 소스(" ++ String.intercalate ", " step.2 ++
         ")는 지원하지 않습니다. 네이버 또는 구글을 선택해주세요.")),
       ("keyword", .s keyword),
       ("rejected_sources", strArr step.2),
       ("supported_sources", strArr ["네이버", "구글"])]
  else .proceed (if step.1.isEmpty then ["네이버"] else step.1)

/-- The fixed trend dict used when no comments were collected
(news_agent.py:401-408). -/
def noCommentsTrend (keyword : String) : JVal :=
  .obj [("keyword", .s keyword), ("overall_sentiment", .s "중립"),
    ("sentiment_distribution",
      .obj [("긍정", .n (33/100)), ("부정", .n (33/100)),
            ("중립", .n (34/100))]),
    ("key_topics", .arr []),
    ("summary", .s "댓글이 없어 동향 분석을 수행할 수 없습니다."),
    ("total_comments", .n 0)]

/-- Python iteration over `article.get("comments", [])[:10]`: slicing a
list or a string works (a string yields its characters), anything else
raises a `TypeError` that escapes to the coordinator boundary. -/
def jSlice10 : JVal → Except String (List JVal)
  | .arr vs => .ok (vs.take 10)
  | .s u => .ok ((u.toList.take 10).map (fun c => JVal.s (String.mk [c])))
  | _ => .error "TypeError"

/-- `comment.get("text", "") if isinstance(comment, dict) else
str(comment)`. -/
def commentTextJ : JVal → JVal
  | .obj kvs => dget kvs "text" (.s "")
  | other => .s (pyStr other)

/-- `comment if isinstance(comment, dict) else {"text": comment}`. -/
def commentData : JVal → Dict
  | .obj kvs => kvs
  | other => [("text", other)]

/-- The per-article sentiment + comment loop of `analyze_news_async`
(news_agent.py:325-372), returning the analyzed articles and the
collected comment texts; `Except` carries an exception escaping to the
coordinator boundary. -/
def analyzeArticleLoop (env : Env) (articles : List Dict) :
    Except String (List Dict × List JVal) :=
  articles.foldlM (fun acc article =>
    if dcontains article "error" then pure acc
    else
      let asent := match env.sentimentOf (articleText500 article) with
        | .ok s => s
        | .error _ => sentFallback
      match jSlice10 (dget article "comments" (.arr [])) with
      | .error e => .error e
      | .ok comments =>
        let step := comments.foldl
          (fun (cc : List Dict × List JVal) c =>
            let ct := commentTextJ c
            if pyTruthy ct then
              match env.sentimentOf ct with
              | .ok cs => (cc.1 ++ [dmerge (commentData c) cs], cc.2 ++ [ct])
              | .error _ => cc
            else cc) ([], [])
        pure (acc.1 ++ [enrichArticle article asent step.1],
          acc.2 ++ step.2)) ([], [])

/-- The success dict of the single-keyword path
(news_agent.py:444-456), assembled from the analyzed articles and
collected comments. -/
def mainSuccessDict (env : Env) (keyword : String) (sources : List String)
    (analyzed : List Dict) (allComments : List JVal) : Dict :=
  [("keyword", .s keyword),
   ("sources", strArr sources),
   ("total_articles", .n analyzed.length),
   ("articles", .arr ((summarizeLoop env analyzed).1.map JVal.obj)),
   ("sentiment_distribution",
     distDict (sentCounts (summarizeLoop env analyzed).1)),
   ("trend_analysis",
     if allComments.isEmpty then noCommentsTrend keyword
     else .obj (env.trendOf
       (allComments.map (fun c => [("text", c)])) keyword)),
   ("keywords", extractKeywordsJ (summarizeLoop env analyzed).1 keyword),
   ("overall_summary", .s (env.overall (summarizeLoop env analyzed).1
     keyword (distDict (sentCounts (summarizeLoop env analyzed).1))).summary),
   ("timing", timingDict (pyRound (env.elapsed keyword).crawl 2)
     (pyRound (env.elapsed keyword).sentiment 2)
     (pyRound (env.elapsed keyword).summary 2)
     (pyRound (env.elapsed keyword).total 2)),
   ("token_usage", usageDict ((summarizeLoop env analyzed).2.add
     (env.overall (summarizeLoop env analyzed).1 keyword
       (distDict (sentCounts (summarizeLoop env analyzed).1))).usage)),
   ("analyzed_at", .s env.now)]

/-- The single-keyword pipeline after the crawl succeeded
(news_agent.py:309-459). -/
def singleMain (env : Env) (keyword : String) (sources : List String)
    (articles : List Dict) : Except String Dict :=
  if articles.isEmpty ∨
      (articles.length = 1 ∧ dcontains (articles.headD []) "error") then
    .ok [("error", dget (articles.headD []) "error" (.s "뉴스 수집 실패")),
      ("keyword", .s keyword), ("sources", strArr sources)]
  else
    match analyzeArticleLoop env articles with
    | .error msg =>
      .ok [("error", .s ("뉴스 분석 중 오류: " ++ msg)),
        ("keyword", .s keyword), ("sources", strArr sources)]
    | .ok (analyzed, allComments) =>
      .ok (mainSuccessDict env keyword sources analyzed allComments)

/-- The single-keyword path of `analyze_news_async` after source
validation (news_agent.py:242-467). -/
def singlePath (env : Env) (keyword : String) (sources valid : List String)
    (maxArticles : Nat) : Except String Dict :=
  match crawlPhase (env.crawl keyword valid maxArticles) keyword
    [("error", .s ("\'" ++ keyword ++
       "\' 키워드로 기사 검색 중 시간 초과가 발생했습니다.")),
     ("keyword", .s keyword), ("sources", strArr valid)] with
  | (.earlyReturn d, _) => .ok d
  | (.exc msg, _) =>
    .ok [("error", .s ("뉴스 분석 중 오류: " ++ msg)),
      ("keyword", .s keyword), ("sources", strArr sources)]
  | (.proceed articles, _) => singleMain env keyword sources articles

/-- `analyze_news_async` after input validation, with `sources` already
defaulted. -/
def analyzeNewsAsyncValid (env : Env) (keyword : String)
    (sources : List String) (maxArticles : Nat) : Except String Dict :=
  if (parseKeywordOperators keyword).type = "or" ∧
      1 < (parseKeywordOperators keyword).keywords.length then
    .ok (analyzeMultipleKeywordsOr env
      (parseKeywordOperators keyword).keywords sources maxArticles)
  else
    match filterSources keyword sources with
    | .rejected d => .ok d
    | .proceed valid => singlePath env keyword sources valid maxArticles

/-- `analyze_news_async` (news_agent.py:149-467), Playwright branch.
`.error` models the `ValueError` raised (not caught) on failed input
validation; every other outcome is a returned dict. -/
def analyzeNewsAsync (env : Env) (keyword : String)
    (sourcesOpt : Option (List String)) (maxArticles : Nat) :
    Except String Dict :=
  if pyValidateInput keyword 200 then
    analyzeNewsAsyncValid env keyword (sourcesOpt.getD ["네이버"])
      maxArticles
  else .error "유효하지 않은 키워드입니다."

/-! ### Source-filtering lemmas (C6) -/

theorem contains_iff_mem (l : List String) (a : String) :
    l.contains a = true ↔ a ∈ l := List.elem_iff

theorem sourceMapping_range {s n : String} (h : sourceMapping s = some n) :
    n = "네이버" ∨ n = "구글" := by
  unfold sourceMapping at h
  split_ifs at h
  · cases h; left; rfl
  · cases h; left; rfl
  · cases h; right; rfl
  · cases h; right; rfl

theorem sourceMapping_not_unsupported {s n : String}
    (h : sourceMapping s = some n) :
    unsupportedSources.contains s = false := by
  unfold sourceMapping at h
  split_ifs at h with h1 h2 h3 h4
  · subst h1; decide
  · subst h2; decide
  · subst h3; decide
  · subst h4; decide

theorem sourceStep_valid_mono (acc : List String × List String)
    (s x : String) (hx : x ∈ acc.1) : x ∈ (sourceStep acc s).1 := by
  unfold sourceStep
  split
  · exact hx
  · split
    · split
      · exact hx
      · exact List.mem_append_left _ hx
    · exact hx

theorem foldl_sourceStep_mono (l : List String)
    (acc : List String × List String) (x : String) (hx : x ∈ acc.1) :
    x ∈ (l.foldl sourceStep acc).1 := by
  induction l generalizing acc with
  | nil => exact hx
  | cons s r ih => exact ih _ (sourceStep_valid_mono acc s x hx)

theorem sourceStep_adds (acc : List String × List String) (s n : String)
    (h : sourceMapping s = some n) : n ∈ (sourceStep acc s).1 := by
  unfold sourceStep
  rw [sourceMapping_not_unsupported h]
  simp only [Bool.false_eq_true, if_false, h]
  split
  · rename_i hc
    exact (contains_iff_mem _ _).mp hc
  · exact List.mem_append_right _ (List.mem_singleton.mpr rfl)

theorem foldl_sourceStep_adds (l : List String)
    (acc : List String × List String) (s n : String) (hs : s ∈ l)
    (h : sourceMapping s = some n) : n ∈ (l.foldl sourceStep acc).1 := by
  induction l generalizing acc with
  | nil => cases hs
  | cons a r ih =>
    rcases List.mem_cons.mp hs with rfl | hr
    · exact foldl_sourceStep_mono r _ n (sourceStep_adds acc s n h)
    · exact ih _ hr

theorem sourceStep_supported (acc : List String × List String)
    (s x : String) (hx : x ∈ (sourceStep acc s).1) :
    x ∈ acc.1 ∨ x = "네이버" ∨ x = "구글" := by
  unfold sourceStep at hx
  split at hx
  · exact Or.inl hx
  · rename_i hm
    split at hx
    · rename_i n hmap
      split at hx
      · exact Or.inl hx
      · rcases List.mem_append.mp hx with h | h
        · exact Or.inl h
        · rw [List.mem_singleton.mp h]
          exact Or.inr (sourceMapping_range hmap)
    · exact Or.inl hx

theorem foldl_sourceStep_supported (l : List String)
    (acc : List String × List String) (x : String)
    (hx : x ∈ (l.foldl sourceStep acc).1) :
    x ∈ acc.1 ∨ x = "네이버" ∨ x = "구글" := by
  induction l generalizing acc with
  | nil => exact Or.inl hx
  | cons s r ih =>
    rcases ih _ hx with h | h
    · exact sourceStep_supported acc s x h
    · exact Or.inr h

/-- [C6] If every requested source is unsupported (e.g.
`["Daum", "KBS"]`), `analyze_news_async` returns the structured error
enumerating the rejected sources and the supported ones (네이버, 구글); if
some requested source maps to a supported one, filtering proceeds with
only supported sources, the mapped one among them. -/
theorem unsupported_sources_rejected :
    (∀ (env : Env) (maxA : Nat),
       analyzeNewsAsync env "키워드" (some ["Daum", "KBS"]) maxA =
         .ok [("error", .s ("선택한 뉴스 소스(Daum, KBS)는 지원하지 " ++
                "않습니다. 네이버 또는 구글을 선택해주세요.")),
              ("keyword", .s "키워드"),
              ("rejected_sources", strArr ["Daum", "KBS"]),
              ("supported_sources", strArr ["네이버", "구글"])]) ∧
    (∀ (keyword : String) (sources : List String) (s n : String),
       s ∈ sources → sourceMapping s = some n →
       ∃ valid, filterSources keyword sources = .proceed valid ∧
         n ∈ valid ∧ ∀ x ∈ valid, x = "네이버" ∨ x = "구글") := by
  constructor
  · intro env maxA
    rfl
  · intro keyword sources s n hs hm
    unfold filterSources
    have hne : sources.isEmpty = false := by
      cases sources
      · cases hs
      · rfl
    simp only [hne, Bool.false_eq_true, if_false]
    have hmem : n ∈ (sources.foldl sourceStep ([], [])).1 :=
      foldl_sourceStep_adds sources ([], []) s n hs hm
    have hval : (sources.foldl sourceStep ([], [])).1.isEmpty = false := by
      rcases hl : (sources.foldl sourceStep ([], [])).1 with _ | ⟨a, r⟩
      · rw [hl] at hmem
        cases hmem
      · rfl
    rw [if_neg (fun hcon =>
      by rw [hval] at hcon; exact absurd hcon.1 (by simp))]
    rw [hval]
    refine ⟨(sources.foldl sourceStep ([], [])).1, ?_, hmem, ?_⟩
    · simp only [Bool.false_eq_true, if_false]
    · intro x hx
      rcases foldl_sourceStep_supported sources ([], []) x hx with h | h
      · cases h
      · exact h

/-! ### OR-path article lemmas (C10, C5) -/

/-- The article dict has empty comments and a zero comment count. -/
def noCommentsP (a : Dict) : Prop :=
  dlookup a "comments" = some (.arr []) ∧
  dlookup a "comment_count" = some (.n 0)

theorem noCommentsP_enrich (a asent : Dict) :
    noCommentsP (enrichArticle a asent []) := by
  unfold enrichArticle noCommentsP
  constructor
  · rw [dlookup_dset_ne _ "comment_count" "comments" _ (by decide),
      dlookup_dset]
    rfl
  · rw [dlookup_dset]
    rfl

theorem noCommentsP_dset (a : Dict) (k : String) (v : JVal)
    (hk1 : "comments" ≠ k) (hk2 : "comment_count" ≠ k)
    (h : noCommentsP a) : noCommentsP (dset a k v) :=
  ⟨by rw [dlookup_dset_ne _ _ _ _ hk1]; exact h.1,
   by rw [dlookup_dset_ne _ _ _ _ hk2]; exact h.2⟩

theorem singleArticleStep_P (env : Env) (l : List Dict)
    (acc : List Dict) (hacc : ∀ b ∈ acc, noCommentsP b) :
    ∀ b ∈ l.foldl (singleArticleStep env) acc, noCommentsP b := by
  induction l generalizing acc with
  | nil => exact hacc
  | cons a r ih =>
    refine ih _ ?_
    intro b hb
    unfold singleArticleStep at hb
    split at hb
    · exact hacc b hb
    · rcases List.mem_append.mp hb with h | h
      · exact hacc b h
      · rw [List.mem_singleton.mp h]
        exact noCommentsP_enrich _ _

theorem summarizeStep_P (env : Env) (l : List Dict)
    (hl : ∀ a ∈ l, noCommentsP a) :
    ∀ (acc : List Dict × Usage), (∀ b ∈ acc.1, noCommentsP b) →
    ∀ b ∈ (l.foldl (summarizeStep env) acc).1, noCommentsP b := by
  induction l with
  | nil => exact fun acc hacc => hacc
  | cons a r ih =>
    intro acc hacc
    refine ih (fun x hx => hl x (List.mem_cons_of_mem a hx)) _ ?_
    intro b hb
    unfold summarizeStep at hb
    rcases List.mem_append.mp hb with h | h
    · exact hacc b h
    · rw [List.mem_singleton.mp h]
      exact noCommentsP_dset _ _ _ (by decide) (by decide)
        (hl a (List.mem_cons_self a r))

theorem jArrDicts_map_obj (l : List Dict) :
    jArrDicts (.arr (l.map JVal.obj)) = l := by
  induction l with
  | nil => rfl
  | cons a r ih =>
    simp only [List.map_cons, jArrDicts, List.filterMap_cons] at ih ⊢
    rw [ih]

/-- Every article in a `singleSuccess` result has empty comments and a
zero comment count. -/
theorem singleSuccess_articles_P (env : Env) (keyword : String)
    (articles : List Dict) :
    ∀ a ∈ jArrDicts (dget (singleSuccess env keyword articles)
        "articles" (.arr [])), noCommentsP a := by
  unfold singleSuccess
  split
  · intro a ha
    exact absurd ha (by simp [dget, dlookup, jArrDicts])
  · have harts : dget
        [("keyword", JVal.s keyword),
         ("total_articles",
           JVal.n (articles.foldl (singleArticleStep env) []).length),
         ("articles", JVal.arr ((summarizeLoop env
           (articles.foldl (singleArticleStep env) [])).1.map JVal.obj)),
         ("sentiment_distribution", distDict (sentCounts
           (summarizeLoop env (articles.foldl (singleArticleStep env) [])).1)),
         ("keywords", extractKeywordsJ
           (summarizeLoop env (articles.foldl (singleArticleStep env) [])).1
           keyword),
         ("timing", timingDict (pyRound (env.elapsed keyword).crawl 2)
           (pyRound (env.elapsed keyword).sentiment 2)
           (pyRound (env.elapsed keyword).summary 2)
           (pyRound (env.elapsed keyword).total 2)),
         ("token_usage", usageDict
           (summarizeLoop env (articles.foldl (singleArticleStep env) [])).2)]
        "articles" (.arr []) =
        .arr ((summarizeLoop env
          (articles.foldl (singleArticleStep env) [])).1.map JVal.obj) := rfl
    rw [harts, jArrDicts_map_obj]
    exact summarizeStep_P env _
      (singleArticleStep_P env articles [] (fun b hb => absurd hb
        (List.not_mem_nil b))) _ (fun b hb => absurd hb (List.not_mem_nil b))

/-- Every article in a `_analyze_single_keyword` result has empty
comments and zero comment count. -/
theorem singleKeyword_articles_P (env : Env) (keyword : String)
    (sources : List String) (maxArticles : Nat) :
    ∀ a ∈ jArrDicts (dget
        (analyzeSingleKeyword env keyword sources maxArticles)
        "articles" (.arr [])), noCommentsP a := by
  unfold analyzeSingleKeyword
  rcases hc : env.crawl keyword (normalizeSources sources) maxArticles
    with arts | _ | msg
  · exact singleSuccess_articles_P env keyword _
  · intro a ha
    exact absurd ha (by simp [crawlPhase, dget, dlookup, jArrDicts])
  · intro a ha
    exact absurd ha (by simp [crawlPhase, dget, dlookup, jArrDicts])

theorem orStepResult_P (acc : OrAcc) (kw : String) (result : Dict)
    (hres : ∀ a ∈ jArrDicts (dget result "articles" (.arr [])),
      noCommentsP a)
    (hacc : ∀ a ∈ acc.allArticles, noCommentsP a) :
    ∀ a ∈ (orStepResult acc kw result).allArticles, noCommentsP a := by
  unfold orStepResult
  split
  · exact hacc
  · intro a ha
    rcases List.mem_append.mp ha with h | h
    · exact hacc a h
    · rcases List.mem_map.mp h with ⟨b, hb, rfl⟩
      exact noCommentsP_dset _ _ _ (by decide) (by decide) (hres b hb)

theorem orFold_P (env : Env) (sources : List String) (budget : Nat)
    (l : List String) :
    ∀ (acc : OrAcc), (∀ a ∈ acc.allArticles, noCommentsP a) →
    ∀ a ∈ (l.foldl (orStep env sources budget) acc).allArticles,
      noCommentsP a := by
  induction l with
  | nil => exact fun acc h => h
  | cons kw r ih =>
    intro acc hacc
    exact ih _ (orStepResult_P acc kw _
      (singleKeyword_articles_P env kw sources budget) hacc)

/-- A successful OR merge result has no `trend_analysis` field and its
articles are exactly the accumulator's. -/
theorem orMergeResult_skips (env : Env) (keywords sources : List String)
    (acc : OrAcc)
    (hsucc : dcontains (orMergeResult env keywords sources acc) "error" =
      false) :
    dlookup (orMergeResult env keywords sources acc) "trend_analysis" =
      Option.none ∧
    jArrDicts (dget (orMergeResult env keywords sources acc) "articles"
      (.arr [])) = acc.allArticles := by
  unfold orMergeResult at hsucc ⊢
  split at hsucc
  · exact absurd hsucc (by simp [dcontains, dlookup])
  · rename_i hne
    rw [if_neg hne]
    refine ⟨rfl, ?_⟩
    rw [show dget
      [("keyword", JVal.s (String.intercalate " || " keywords)),
       ("search_type", JVal.s "or"),
       ("keyword_results", JVal.arr acc.keywordResults),
       ("sources", strArr sources),
       ("total_articles", JVal.n acc.allArticles.length),
       ("articles", JVal.arr (acc.allArticles.map JVal.obj)),
       ("sentiment_distribution", distDict acc.combined),
       ("keywords", JVal.arr (acc.allKeywords.take 20)),
       ("overall_summary", JVal.s (env.overall acc.allArticles
         (String.intercalate " || " keywords) (distDict acc.combined)).summary),
       ("timing", timingDict acc.crawlT acc.sentT
         (acc.sumT + pyRound env.orSummaryElapsed 2)
         (pyRound env.orTotalElapsed 2)),
       ("token_usage", usageDict (acc.usage.add (env.overall acc.allArticles
         (String.intercalate " || " keywords) (distDict acc.combined)).usage)),
       ("analyzed_at", JVal.s env.now)] "articles" (.arr []) =
      JVal.arr (acc.allArticles.map JVal.obj) from rfl, jArrDicts_map_obj]

/-- [C10] Every successful OR-type merged result contains no
trend-analysis field, and every article in it has `comments == []` and
`comment_count == 0`: comment collection, per-comment scoring and trend
aggregation are skipped entirely in OR sub-analyses. -/
theorem or_result_skips_comments (env : Env)
    (keywords sources : List String) (maxArticles : Nat)
    (hsucc : dcontains
      (analyzeMultipleKeywordsOr env keywords sources maxArticles)
      "error" = false) :
    dlookup (analyzeMultipleKeywordsOr env keywords sources maxArticles)
      "trend_analysis" = Option.none ∧
    ∀ a ∈ jArrDicts (dget
        (analyzeMultipleKeywordsOr env keywords sources maxArticles)
        "articles" (.arr [])),
      dlookup a "comments" = some (.arr []) ∧
      dlookup a "comment_count" = some (.n 0) := by
  obtain ⟨h1, h2⟩ := orMergeResult_skips env keywords sources
    (keywords.foldl
      (orStep env sources (max 3 (maxArticles / keywords.length)))
      OrAcc.init) hsucc
  refine ⟨h1, ?_⟩
  show ∀ a ∈ jArrDicts (dget (orMergeResult env keywords sources _)
    "articles" (.arr [])), _
  rw [h2]
  exact orFold_P env sources (max 3 (maxArticles / keywords.length))
    keywords OrAcc.init (fun b hb => absurd hb (List.not_mem_nil b))

/-- A concrete environment used by the witness instantiations: every
crawl finds one article, every LLM call succeeds with fixed outputs. -/
def testEnv : Env :=
  { crawl := fun _ _ _ => .ok
      [[("title", .s "제목입니다"), ("content", .s "본문 내용입니다"),
        ("url", .s "http://news.example/1")]],
    sentimentOf := fun _ =>
      .ok [("sentiment", .s "긍정"), ("sentiment_score", .n (8/10)),
           ("sentiment_label", .s "positive"), ("confidence", .n (9/10))],
    trendOf := fun _ _ => [("overall_sentiment", .s "긍정")],
    summarize := fun _ _ => ⟨"요약", ⟨10, 5, 15⟩⟩,
    overall := fun _ _ _ => ⟨"종합 요약", ⟨20, 7, 27⟩⟩,
    elapsed := fun _ => ⟨1, 2, 3, 6⟩,
    orSummaryElapsed := 1,
    orTotalElapsed := 10,
    now := "2025-01-01T00:00:00" }

/-- [C10] Witness: the statement applied to a concrete successful OR
query. -/
theorem or_result_skips_comments_witness :
    dcontains (analyzeMultipleKeywordsOr testEnv ["가", "나"] ["네이버"] 6)
        "error" = false ∧
    dlookup (analyzeMultipleKeywordsOr testEnv ["가", "나"] ["네이버"] 6)
        "trend_analysis" = Option.none :=
  ⟨rfl,
   (or_result_skips_comments testEnv ["가", "나"] ["네이버"] 6 rfl).1⟩

/-! ### Crawl-timeout behavior (C4) -/

/-- Environment whose crawls always time out. -/
def timeoutEnv : Env := { testEnv with crawl := fun _ _ _ => .timeout }

/-- Environment where the crawl for the keyword `"가"` times out and any
other crawl succeeds. -/
def mixedEnv : Env :=
  { testEnv with crawl := fun kw s m =>
      if kw = "가" then .timeout else testEnv.crawl kw s m }

/-- [C4] Counterexample.  (a) In the per-keyword OR sub-analysis path, a
crawl timeout yields `{"error": "'가' 검색 시간 초과"}` with no `keyword`
and no `sources` field (the keyword appears only inside the message
text); (b) when one of two OR sub-keywords times out and the other
succeeds, the coordinator returns a partial success (no `error` field,
`search_type: "or"`) rather than a structured error. -/
theorem per_keyword_timeout_claim_false :
    dlookup (analyzeSingleKeyword timeoutEnv "가" ["네이버"] 3)
        "sources" = Option.none ∧
    dlookup (analyzeSingleKeyword timeoutEnv "가" ["네이버"] 3)
        "keyword" = Option.none ∧
    dlookup (analyzeSingleKeyword timeoutEnv "가" ["네이버"] 3)
        "error" = some (.s "\'가\' 검색 시간 초과") ∧
    dcontains (analyzeMultipleKeywordsOr mixedEnv ["가", "나"] ["네이버"] 6)
        "error" = false ∧
    dlookup (analyzeMultipleKeywordsOr mixedEnv ["가", "나"] ["네이버"] 6)
        "search_type" = some (.s "or") :=
  ⟨rfl, rfl, rfl, rfl, rfl⟩

/-- [C4] (amended) A crawl timeout in `analyze_news_async`'s
single-keyword path (180 s) returns the structured error containing the
keyword and the (normalized) sources; in the per-keyword OR sub-analysis
path (120 s) the timed-out sub-keyword yields an error dict whose only
field is the message (the keyword embedded in its text), which the OR
coordinator skips — partial success from surviving sub-keywords is
possible; and the scraper's `cleanup()` (the `finally`) executes on every
exit path of the crawl phase. -/
theorem crawl_timeout_behavior :
    (∀ (env : Env) (keyword : String) (sources valid : List String)
        (maxA : Nat),
       pyValidateInput keyword 200 = true →
       ¬ ((parseKeywordOperators keyword).type = "or" ∧
          1 < (parseKeywordOperators keyword).keywords.length) →
       filterSources keyword sources = .proceed valid →
       env.crawl keyword valid maxA = .timeout →
       analyzeNewsAsync env keyword (some sources) maxA =
         .ok [("error", .s ("\'" ++ keyword ++
                "\' 키워드로 기사 검색 중 시간 초과가 발생했습니다.")),
              ("keyword", .s keyword), ("sources", strArr valid)]) ∧
    (∀ (env : Env) (keyword : String) (sources : List String)
        (maxA : Nat),
       env.crawl keyword (normalizeSources sources) maxA = .timeout →
       analyzeSingleKeyword env keyword sources maxA =
         [("error", .s ("\'" ++ keyword ++ "\' 검색 시간 초과"))]) ∧
    (∀ (outcome : CrawlOutcome) (keyword : String) (d : Dict),
       (crawlPhase outcome keyword d).2 = true) := by
  refine ⟨?_, ?_, ?_⟩
  · intro env keyword sources valid maxA hval hnotor hfil hcr
    unfold analyzeNewsAsync
    rw [if_pos hval]
    show analyzeNewsAsyncValid env keyword sources maxA = _
    unfold analyzeNewsAsyncValid
    rw [if_neg hnotor, hfil]
    show singlePath env keyword sources valid maxA = _
    unfold singlePath
    rw [hcr]
    rfl
  · intro env keyword sources maxA hcr
    unfold analyzeSingleKeyword
    rw [hcr]
    rfl
  · intro outcome keyword d
    cases outcome <;> rfl

/-- [C4] Witness: both timeout statements applied at a concrete
always-timeout environment. -/
theorem crawl_timeout_behavior_witness :
    analyzeNewsAsync timeoutEnv "뉴스" (some ["네이버"]) 5 =
      .ok [("error", .s ("\'" ++ "뉴스" ++
             "\' 키워드로 기사 검색 중 시간 초과가 발생했습니다.")),
           ("keyword", .s "뉴스"), ("sources", strArr ["네이버"])] ∧
    analyzeSingleKeyword timeoutEnv "뉴스" ["네이버"] 3 =
      [("error", .s ("\'" ++ "뉴스" ++ "\' 검색 시간 초과"))] :=
  ⟨crawl_timeout_behavior.1 timeoutEnv "뉴스" ["네이버"] ["네이버"] 5
     (by decide) (by decide) rfl rfl,
   crawl_timeout_behavior.2.1 timeoutEnv "뉴스" ["네이버"] 3 rfl⟩

/-! ### OR-merge characterization (C5)

Specification-side description of the merge: the list of successful
independent sub-analyses, and sums/concatenations over it. -/

/-- The successful sub-analyses `(kw, result)` of an OR query, one
independent `_analyze_single_keyword` run per sub-keyword, in order. -/
def orSubs (env : Env) (sources : List String) (budget : Nat) :
    List String → List (String × Dict)
  | [] => []
  | kw :: r =>
    if dcontains (analyzeSingleKeyword env kw sources budget) "error" then
      orSubs env sources budget r
    else
      (kw, analyzeSingleKeyword env kw sources budget) ::
        orSubs env sources budget r

/-- Concatenated sub-articles, each tagged with the sub-keyword that
found it. -/
def orArtsOf (subs : List (String × Dict)) : List Dict :=
  (subs.map (fun p => (jArrDicts (dget p.2 "articles" (.arr []))).map
    (fun a => dset a "search_keyword" (.s p.1)))).flatten

/-- Concatenated sub-keyword frequency entries. -/
def orKwsOf (subs : List (String × Dict)) : List JVal :=
  (subs.map (fun p => jArrList (dget p.2 "keywords" (.arr [])))).flatten

/-- One `keyword_results` entry per successful sub-keyword. -/
def orKROf (subs : List (String × Dict)) : List JVal :=
  subs.map (fun p => .obj [("keyword", .s p.1),
    ("article_count", dget p.2 "total_articles" (.n 0)),
    ("sentiment", dget p.2 "sentiment_distribution" (.obj []))])

/-- Sum of a numeric projection over the successful sub-analyses. -/
def sumBy (f : String × Dict → ℚ) (subs : List (String × Dict)) : ℚ :=
  (subs.map f).sum

/-- A sentiment count of one sub-result. -/
def subDistNum (k : String) (p : String × Dict) : ℚ :=
  jGetNum (dget p.2 "sentiment_distribution" (.obj [])) k

/-- A timing entry of one sub-result. -/
def subTimingNum (k : String) (p : String × Dict) : ℚ :=
  jGetNum (dget p.2 "timing" (.obj [])) k

/-- A token counter of one sub-result. -/
def subTokenNum (k : String) (p : String × Dict) : ℚ :=
  jGetNum (dget p.2 "token_usage" (.obj [])) k

/-- The merge loop computes exactly the sums and concatenations over the
successful sub-analyses. -/
theorem orFold_spec (env : Env) (sources : List String) (budget : Nat)
    (l : List String) (acc : OrAcc) :
    l.foldl (orStep env sources budget) acc =
      { allArticles := acc.allArticles ++
          orArtsOf (orSubs env sources budget l),
        allKeywords := acc.allKeywords ++
          orKwsOf (orSubs env sources budget l),
        combined := (acc.combined.1 +
            sumBy (subDistNum "positive") (orSubs env sources budget l),
          acc.combined.2.1 +
            sumBy (subDistNum "negative") (orSubs env sources budget l),
          acc.combined.2.2 +
            sumBy (subDistNum "neutral") (orSubs env sources budget l)),
        keywordResults := acc.keywordResults ++
          orKROf (orSubs env sources budget l),
        crawlT := acc.crawlT +
          sumBy (subTimingNum "crawling_time") (orSubs env sources budget l),
        sentT := acc.sentT +
          sumBy (subTimingNum "sentiment_time") (orSubs env sources budget l),
        sumT := acc.sumT +
          sumBy (subTimingNum "summary_time") (orSubs env sources budget l),
        usage := ⟨acc.usage.prompt +
            sumBy (subTokenNum "prompt_tokens") (orSubs env sources budget l),
          acc.usage.completion +
            sumBy (subTokenNum "completion_tokens")
              (orSubs env sources budget l),
          acc.usage.total +
            sumBy (subTokenNum "total_tokens")
              (orSubs env sources budget l)⟩ } := by
  induction l generalizing acc with
  | nil =>
    simp [orSubs, orArtsOf, orKwsOf, orKROf, sumBy]
  | cons kw r ih =>
    show r.foldl (orStep env sources budget)
      (orStepResult acc kw (analyzeSingleKeyword env kw sources budget)) = _
    by_cases he : dcontains (analyzeSingleKeyword env kw sources budget)
        "error" = true
    · rw [show orStepResult acc kw
          (analyzeSingleKeyword env kw sources budget) = acc from by
        unfold orStepResult; rw [if_pos he]]
      rw [ih acc]
      simp only [orSubs, if_pos he]
    · rw [show orStepResult acc kw
          (analyzeSingleKeyword env kw sources budget) =
          { allArticles := acc.allArticles ++
              (jArrDicts (dget (analyzeSingleKeyword env kw sources budget)
                "articles" (.arr []))).map
                (fun a => dset a "search_keyword" (.s kw)),
            allKeywords := acc.allKeywords ++
              jArrList (dget (analyzeSingleKeyword env kw sources budget)
                "keywords" (.arr [])),
            combined := (acc.combined.1 + subDistNum "positive"
                (kw, analyzeSingleKeyword env kw sources budget),
              acc.combined.2.1 + subDistNum "negative"
                (kw, analyzeSingleKeyword env kw sources budget),
              acc.combined.2.2 + subDistNum "neutral"
                (kw, analyzeSingleKeyword env kw sources budget)),
            keywordResults := acc.keywordResults ++
              [.obj [("keyword", .s kw),
                ("article_count",
                  dget (analyzeSingleKeyword env kw sources budget)
                    "total_articles" (.n 0)),
                ("sentiment",
                  dget (analyzeSingleKeyword env kw sources budget)
                    "sentiment_distribution" (.obj []))]],
            crawlT := acc.crawlT + subTimingNum "crawling_time"
              (kw, analyzeSingleKeyword env kw sources budget),
            sentT := acc.sentT + subTimingNum "sentiment_time"
              (kw, analyzeSingleKeyword env kw sources budget),
            sumT := acc.sumT + subTimingNum "summary_time"
              (kw, analyzeSingleKeyword env kw sources budget),
            usage := ⟨acc.usage.prompt + subTokenNum "prompt_tokens"
                (kw, analyzeSingleKeyword env kw sources budget),
              acc.usage.completion + subTokenNum "completion_tokens"
                (kw, analyzeSingleKeyword env kw sources budget),
              acc.usage.total + subTokenNum "total_tokens"
                (kw, analyzeSingleKeyword env kw sources budget)⟩ } from by
        unfold orStepResult
        rw [if_neg he]
        rfl]
      rw [ih]
      simp only [orSubs, if_neg he, orArtsOf, orKwsOf, orKROf, sumBy,
        List.map_cons, List.flatten_cons, List.singleton_append,
        List.sum_cons, List.append_assoc, add_assoc]

/-- The successful sub-analyses of an OR query, with the per-keyword
budget `max(3, max_articles // len(keywords))` (news_agent.py:572). -/
def orSubsOf (env : Env) (keywords sources : List String)
    (maxArticles : Nat) : List (String × Dict) :=
  orSubs env sources (max 3 (maxArticles / keywords.length)) keywords

/-- [C5] Counterexample: at a concrete environment in which each
sub-analysis reports its own token usage and the merge-level combined
summary consumes 20 prompt tokens, the merged `prompt_tokens` equals the
sum over the sub-analyses PLUS 20 — so it is not "token counters summed
across the sub-analyses" as claimed: the regenerated overall summary's
usage is added on top (news_agent.py:647, 660). -/
theorem or_token_usage_not_sub_sum :
    jGetNum (dget (analyzeMultipleKeywordsOr testEnv ["가", "나"]
        ["네이버"] 6) "token_usage" (.obj [])) "prompt_tokens" =
      sumBy (subTokenNum "prompt_tokens")
        (orSubsOf testEnv ["가", "나"] ["네이버"] 6) + 20 ∧
    sumBy (subTokenNum "prompt_tokens")
        (orSubsOf testEnv ["가", "나"] ["네이버"] 6) + 20 ≠
      sumBy (subTokenNum "prompt_tokens")
        (orSubsOf testEnv ["가", "나"] ["네이버"] 6) := by
  constructor
  · unfold analyzeMultipleKeywordsOr orSubsOf
    rw [orFold_spec]
    simp only [OrAcc.init, Usage.zero, List.nil_append, zero_add]
    rfl
  · intro h
    have h20 : (20 : ℚ) = 0 := add_left_cancel (h.trans (add_zero _).symm)
    norm_num at h20

/-- [C5] For every OR query whose merge ends with at least one article,
the coordinator runs one independent sub-analysis per sub-keyword with
per-keyword budget `max(3, max_articles // len(keywords))` (embodied in
`orSubsOf`), and the merged result has `search_type` "or",
`keyword_results` listing each successful sub-keyword's outcome, the
concatenated articles each tagged with the sub-keyword that found it,
sentiment counts and crawl/sentiment timing summed across the
sub-analyses — but `summary_time` is that sum plus the merge-level
combined-summary time, and the token counters are the sums plus the
merge-level combined summary's own usage. -/
theorem or_merge_spec (env : Env) (keywords sources : List String)
    (maxArticles : Nat)
    (hne : (orArtsOf (orSubsOf env keywords sources
      maxArticles)).isEmpty = false) :
    analyzeMultipleKeywordsOr env keywords sources maxArticles =
      [("keyword", .s (String.intercalate " || " keywords)),
       ("search_type", .s "or"),
       ("keyword_results",
         .arr (orKROf (orSubsOf env keywords sources maxArticles))),
       ("sources", strArr sources),
       ("total_articles",
         .n (orArtsOf (orSubsOf env keywords sources maxArticles)).length),
       ("articles", .arr ((orArtsOf
         (orSubsOf env keywords sources maxArticles)).map JVal.obj)),
       ("sentiment_distribution", distDict
         (sumBy (subDistNum "positive")
           (orSubsOf env keywords sources maxArticles),
          sumBy (subDistNum "negative")
           (orSubsOf env keywords sources maxArticles),
          sumBy (subDistNum "neutral")
           (orSubsOf env keywords sources maxArticles))),
       ("keywords", .arr ((orKwsOf
         (orSubsOf env keywords sources maxArticles)).take 20)),
       ("overall_summary", .s (env.overall
         (orArtsOf (orSubsOf env keywords sources maxArticles))
         (String.intercalate " || " keywords)
         (distDict
           (sumBy (subDistNum "positive")
             (orSubsOf env keywords sources maxArticles),
            sumBy (subDistNum "negative")
             (orSubsOf env keywords sources maxArticles),
            sumBy (subDistNum "neutral")
             (orSubsOf env keywords sources maxArticles)))).summary),
       ("timing", timingDict
         (sumBy (subTimingNum "crawling_time")
           (orSubsOf env keywords sources maxArticles))
         (sumBy (subTimingNum "sentiment_time")
           (orSubsOf env keywords sources maxArticles))
         (sumBy (subTimingNum "summary_time")
           (orSubsOf env keywords sources maxArticles) +
           pyRound env.orSummaryElapsed 2)
         (pyRound env.orTotalElapsed 2)),
       ("token_usage", usageDict (Usage.add
         ⟨sumBy (subTokenNum "prompt_tokens")
            (orSubsOf env keywords sources maxArticles),
          sumBy (subTokenNum "completion_tokens")
            (orSubsOf env keywords sources maxArticles),
          sumBy (subTokenNum "total_tokens")
            (orSubsOf env keywords sources maxArticles)⟩
         (env.overall
           (orArtsOf (orSubsOf env keywords sources maxArticles))
           (String.intercalate " || " keywords)
           (distDict
             (sumBy (subDistNum "positive")
               (orSubsOf env keywords sources maxArticles),
              sumBy (subDistNum "negative")
               (orSubsOf env keywords sources maxArticles),
              sumBy (subDistNum "neutral")
               (orSubsOf env keywords sources maxArticles)))).usage)),
       ("analyzed_at", .s env.now)] := by
  unfold orSubsOf at hne ⊢
  unfold analyzeMultipleKeywordsOr
  rw [orFold_spec]
  unfold orMergeResult
  simp only [OrAcc.init, Usage.zero, List.nil_append, zero_add]
  rw [if_neg (by rw [hne]; exact Bool.false_ne_true)]

/-- [C5] Witness: the documented scenario shape at `max_articles = 6`
with two sub-keywords — budget `max(3, 6 // 2) = 3` — at the concrete
test environment. -/
theorem or_merge_spec_witness :
    (orArtsOf (orSubsOf testEnv ["가", "나"] ["네이버"] 6)).isEmpty =
      false ∧
    max 3 (6 / 2) = 3 ∧
    analyzeMultipleKeywordsOr testEnv ["가", "나"] ["네이버"] 6 =
      [("keyword", .s (String.intercalate " || " ["가", "나"])),
       ("search_type", .s "or"),
       ("keyword_results",
         .arr (orKROf (orSubsOf testEnv ["가", "나"] ["네이버"] 6))),
       ("sources", strArr ["네이버"]),
       ("total_articles",
         .n (orArtsOf (orSubsOf testEnv ["가", "나"] ["네이버"] 6)).length),
       ("articles", .arr ((orArtsOf
         (orSubsOf testEnv ["가", "나"] ["네이버"] 6)).map JVal.obj)),
       ("sentiment_distribution", distDict
         (sumBy (subDistNum "positive")
           (orSubsOf testEnv ["가", "나"] ["네이버"] 6),
          sumBy (subDistNum "negative")
           (orSubsOf testEnv ["가", "나"] ["네이버"] 6),
          sumBy (subDistNum "neutral")
           (orSubsOf testEnv ["가", "나"] ["네이버"] 6))),
       ("keywords", .arr ((orKwsOf
         (orSubsOf testEnv ["가", "나"] ["네이버"] 6)).take 20)),
       ("overall_summary", .s (testEnv.overall
         (orArtsOf (orSubsOf testEnv ["가", "나"] ["네이버"] 6))
         (String.intercalate " || " ["가", "나"])
         (distDict
           (sumBy (subDistNum "positive")
             (orSubsOf testEnv ["가", "나"] ["네이버"] 6),
            sumBy (subDistNum "negative")
             (orSubsOf testEnv ["가", "나"] ["네이버"] 6),
            sumBy (subDistNum "neutral")
             (orSubsOf testEnv ["가", "나"] ["네이버"] 6)))).summary),
       ("timing", timingDict
         (sumBy (subTimingNum "crawling_time")
           (orSubsOf testEnv ["가", "나"] ["네이버"] 6))
         (sumBy (subTimingNum "sentiment_time")
           (orSubsOf testEnv ["가", "나"] ["네이버"] 6))
         (sumBy (subTimingNum "summary_time")
           (orSubsOf testEnv ["가", "나"] ["네이버"] 6) +
           pyRound testEnv.orSummaryElapsed 2)
         (pyRound testEnv.orTotalElapsed 2)),
       ("token_usage", usageDict (Usage.add
         ⟨sumBy (subTokenNum "prompt_tokens")
            (orSubsOf testEnv ["가", "나"] ["네이버"] 6),
          sumBy (subTokenNum "completion_tokens")
            (orSubsOf testEnv ["가", "나"] ["네이버"] 6),
          sumBy (subTokenNum "total_tokens")
            (orSubsOf testEnv ["가", "나"] ["네이버"] 6)⟩
         (testEnv.overall
           (orArtsOf (orSubsOf testEnv ["가", "나"] ["네이버"] 6))
           (String.intercalate " || " ["가", "나"])
           (distDict
             (sumBy (subDistNum "positive")
               (orSubsOf testEnv ["가", "나"] ["네이버"] 6),
              sumBy (subDistNum "negative")
               (orSubsOf testEnv ["가", "나"] ["네이버"] 6),
              sumBy (subDistNum "neutral")
               (orSubsOf testEnv ["가", "나"] ["네이버"] 6)))).usage)),
       ("analyzed_at", .s testEnv.now)] :=
  ⟨rfl, rfl, or_merge_spec testEnv ["가", "나"] ["네이버"] 6 rfl⟩

/-- [C6] Witness: the rejection statement at the documented input and the
partial-drop statement at `["Daum", "naver"]`. -/
theorem unsupported_sources_rejected_witness :
    (∀ (env : Env) (maxA : Nat),
       analyzeNewsAsync env "키워드" (some ["Daum", "KBS"]) maxA =
         .ok [("error", .s ("선택한 뉴스 소스(Daum, KBS)는 지원하지 " ++
                "않습니다. 네이버 또는 구글을 선택해주세요.")),
              ("keyword", .s "키워드"),
              ("rejected_sources", strArr ["Daum", "KBS"]),
              ("supported_sources", strArr ["네이버", "구글"])]) ∧
    (∃ valid, filterSources "키워드" ["Daum", "naver"] = .proceed valid ∧
       "네이버" ∈ valid ∧ ∀ x ∈ valid, x = "네이버" ∨ x = "구글") :=
  ⟨unsupported_sources_rejected.1,
   unsupported_sources_rejected.2 "키워드" ["Daum", "naver"] "naver"
     "네이버" (by decide) rfl⟩

/-! ### Coordinator result shapes (C1) -/

/-- The structured-error shape: a dict carrying an `"error"` field and
the echoed `"keyword"`. -/
def errShape (d : Dict) : Prop :=
  dcontains d "error" = true ∧ dcontains d "keyword" = true

/-- The success shape: no `"error"` field, and all documented result
fields present. -/
def successShape (d : Dict) : Prop :=
  dcontains d "error" = false ∧
  dcontains d "keyword" = true ∧
  dcontains d "sources" = true ∧
  dcontains d "total_articles" = true ∧
  dcontains d "articles" = true ∧
  dcontains d "sentiment_distribution" = true ∧
  dcontains d "keywords" = true ∧
  dcontains d "overall_summary" = true ∧
  dcontains d "timing" = true ∧
  dcontains d "token_usage" = true ∧
  dcontains d "analyzed_at" = true

/-- No dict is in both shapes: `errShape` requires an `"error"` field,
`successShape` forbids it. -/
theorem shape_exclusive (d : Dict) : ¬(errShape d ∧ successShape d) :=
  fun ⟨he, hs⟩ => absurd (he.1.symm.trans hs.1) (by decide)

/-- A rejected source check always carries the structured-error fields. -/
theorem filterSources_rejected_err (keyword : String) (sources : List String)
    (d : Dict)
    (h : filterSources keyword sources = SourceCheck.rejected d) :
    dcontains d "error" = true ∧ dcontains d "keyword" = true := by
  unfold filterSources at h
  by_cases hc : ((if sources.isEmpty then ["네이버"] else sources).foldl
        sourceStep ([], [])).1.isEmpty = true ∧
      ¬(((if sources.isEmpty then ["네이버"] else sources).foldl
        sourceStep ([], [])).2.isEmpty = true)
  · rw [if_pos hc] at h
    cases h
    exact ⟨rfl, rfl⟩
  · rw [if_neg hc] at h
    cases h

/-- [C1] Counterexample: a keyword failing input validation makes
`analyze_news_async` raise `ValueError("유효하지 않은 키워드입니다.")` —
the `raise` at news_agent.py:171 sits before the `try` block, so the
exception escapes the public entry point instead of being converted into
the structured error shape. -/
theorem invalid_keyword_raises :
    analyzeNewsAsync testEnv "" (some ["네이버"]) 5 =
      .error "유효하지 않은 키워드입니다." := rfl

/-- [C1] (amended) A keyword failing input validation raises a
`ValueError` out of `analyze_news_async` (the validation sits before the
`try`); for every keyword passing validation, `analyze_news_async`
returns (never raises) a dict in exactly one of the two documented
shapes: a structured error with an `"error"` field plus the keyword, or
a full success result. -/
theorem analyze_news_async_shapes (env : Env) (keyword : String)
    (sourcesOpt : Option (List String)) (maxA : Nat) :
    (pyValidateInput keyword 200 = false →
      analyzeNewsAsync env keyword sourcesOpt maxA =
        .error "유효하지 않은 키워드입니다.") ∧
    (pyValidateInput keyword 200 = true →
      ∃ d, analyzeNewsAsync env keyword sourcesOpt maxA = .ok d ∧
        (errShape d ∨ successShape d) ∧ ¬(errShape d ∧ successShape d)) := by
  constructor
  · intro h
    unfold analyzeNewsAsync
    rw [h]
    simp
  · intro h
    unfold analyzeNewsAsync
    rw [h]
    simp only [if_true]
    unfold analyzeNewsAsyncValid
    by_cases hor : (parseKeywordOperators keyword).type = "or" ∧
        1 < (parseKeywordOperators keyword).keywords.length
    · rw [if_pos hor]
      refine ⟨_, rfl, ?_, shape_exclusive _⟩
      unfold analyzeMultipleKeywordsOr orMergeResult
      split
      · exact Or.inl ⟨rfl, rfl⟩
      · exact Or.inr ⟨rfl, rfl, rfl, rfl, rfl, rfl, rfl, rfl, rfl, rfl, rfl⟩
    · rw [if_neg hor]
      cases hf : filterSources keyword (sourcesOpt.getD ["네이버"]) with
      | rejected d =>
        exact ⟨d, rfl, Or.inl (filterSources_rejected_err keyword
          (sourcesOpt.getD ["네이버"]) d hf), shape_exclusive d⟩
      | proceed valid =>
        show ∃ d, singlePath env keyword _ valid maxA = .ok d ∧ _
        unfold singlePath
        cases hc : env.crawl keyword valid maxA with
        | ok arts =>
          show ∃ d, singleMain env keyword _ _ = .ok d ∧ _
          unfold singleMain
          split
          · exact ⟨_, rfl, Or.inl ⟨rfl, rfl⟩, shape_exclusive _⟩
          · cases hl : analyzeArticleLoop env
                ((arts.map (fun a => dset a "keyword" (.s keyword)))) with
            | error msg =>
              exact ⟨_, rfl, Or.inl ⟨rfl, rfl⟩, shape_exclusive _⟩
            | ok pr =>
              obtain ⟨analyzed, allComments⟩ := pr
              exact ⟨_, rfl, Or.inr ⟨rfl, rfl, rfl, rfl, rfl, rfl, rfl,
                rfl, rfl, rfl, rfl⟩, shape_exclusive _⟩
        | timeout =>
          exact ⟨_, rfl, Or.inl ⟨rfl, rfl⟩, shape_exclusive _⟩
        | raised msg =>
          exact ⟨_, rfl, Or.inl ⟨rfl, rfl⟩, shape_exclusive _⟩

/-- [C1] Witness: both statements at concrete inputs — the empty keyword
fails validation and raises; a valid keyword at the concrete test
environment returns a dict in one of the two shapes. -/
theorem analyze_news_async_shapes_witness :
    analyzeNewsAsync testEnv "" (some ["네이버"]) 5 =
      .error "유효하지 않은 키워드입니다." ∧
    (∃ d, analyzeNewsAsync testEnv "뉴스" (some ["네이버"]) 5 = .ok d ∧
      (errShape d ∨ successShape d) ∧ ¬(errShape d ∧ successShape d)) :=
  ⟨(analyze_news_async_shapes testEnv "" (some ["네이버"]) 5).1 rfl,
   (analyze_news_async_shapes testEnv "뉴스" (some ["네이버"]) 5).2 rfl⟩

end NewsAgent
